/-
Verification of the airman flight-training scheduler.

Shallow embedding of the core modules:
  app/scheduling/availability.py, app/scheduling/state.py,
  app/scheduling/sortie_rules.py, app/scheduling/roster.py,
  app/weather/fetcher.py (mock part), app/dispatch/engine.py,
  app/reallocation/engine.py.

Modelling conventions:
  - Python dicts are association lists with dict semantics: insertion
    keeps the first position of a key and the last value written.
  - Python dates are day numbers (Nat, days since 1970-01-01, which was a
    Thursday).  date.isoformat and date.fromisoformat are modelled as the
    identity on day numbers; the calendar day-of-month used in slot ids is
    computed with the standard civil-from-days algorithm.
  - Python floats (duty hours, visibility, churn rate) are modelled as
    rationals; every float arising here is an exact decimal.
  - Time-of-day strings are kept as strings where the source compares them
    as strings (BookingState intervals) and parsed to minutes where the
    source parses them (availability windows).
  - datetime values of DisruptionEvent are modelled by their date part,
    which is the only part the source reads.
-/
import Mathlib

set_option maxRecDepth 8000

/-! ## Python dict as an association list -/

/-- Lookup in a Python-style dict: first entry whose key matches. -/
def alGet {K V : Type} [DecidableEq K] (m : List (K × V)) (k : K) : Option V :=
  (m.find? (fun p => decide (p.1 = k))).map (fun p => p.2)

/-- Python dict assignment: overwrite the value in place if the key is
present, append a new entry otherwise. -/
def alSet {K V : Type} [DecidableEq K] (m : List (K × V)) (k : K) (v : V) :
    List (K × V) :=
  if m.any (fun p => decide (p.1 = k)) then
    m.map (fun p => if p.1 = k then (k, v) else p)
  else
    m ++ [(k, v)]

/-- Membership test on the keys of a dict. -/
def alHasKey {K V : Type} [DecidableEq K] (m : List (K × V)) (k : K) : Bool :=
  m.any (fun p => decide (p.1 = k))

/-! ## availability.py -/

/-- parse_time, totalised: strptime with format string H colon M accepts one
or two digits per field, hours below 24 and minutes below 60, and nothing
else; the result is minutes after midnight.  The source raises on a parse
failure; callers of the embedding match on the Option instead. -/
def parseTime? (t : String) : Option Nat :=
  match t.splitOn (":") with
  | [h, m] =>
    if 1 ≤ h.length ∧ h.length ≤ 2 ∧ h.toList.all Char.isDigit ∧
       1 ≤ m.length ∧ m.length ≤ 2 ∧ m.toList.all Char.isDigit then
      let hv := h.toNat!
      let mv := m.toNat!
      if hv ≤ 23 ∧ mv ≤ 59 then some (hv * 60 + mv) else none
    else none
  | _ => none

/-- slot_fits_in_window: false for the empty or MAINTENANCE window, false on
any parse failure (the source catches the exception), containment of the
candidate window otherwise. -/
def slot_fits_in_window (slot_start slot_end window : String) : Bool :=
  if window = ("") ∨ window.toUpper = ("MAINTENANCE") then false
  else
    match window.splitOn ("-") with
    | [ws, we] =>
      match parseTime? ws, parseTime? we, parseTime? slot_start, parseTime? slot_end with
      | some a, some b, some c, some d => decide (a ≤ c) && decide (d ≤ b)
      | _, _, _, _ => false
    | _ => false

/-- Weekday-name-to-window-list map of an entity.  A bare string value in
the source is wrapped into a one-element list by is_available; the
embedding takes the already-wrapped list. -/
def Availability : Type := List (String × List String)

instance : DecidableEq Availability := by
  unfold Availability; infer_instance

/-- is_available from availability.py. -/
def is_available (avail : Availability) (day_name slot_start slot_end : String) : Bool :=
  let windows := (alGet avail day_name).getD []
  windows.any (fun w => slot_fits_in_window slot_start slot_end w)

/-- duration_hours: minutes-mod-one-day difference divided into hours, as a
rational.  The source raises on a parse failure; in the generator every
call site is guarded by is_available, which only succeeds when both slot
times parse, so the default 0 branch is unreachable there. -/
def duration_hours (s e : String) : ℚ :=
  match parseTime? s, parseTime? e with
  | some a, some b => ((((b : Int) - (a : Int)).emod 1440 * 60 : Int) : ℚ) / 3600
  | _, _ => 0

/-- get_day_name: strftime weekday abbreviation; day 0 is 1970-01-01, a
Thursday. -/
def get_day_name (d : Nat) : String :=
  (["Thu", "Fri", "Sat", "Sun", "Mon", "Tue", "Wed"].getD (d % 7) (""))

/-- week_dates: the five consecutive days starting at week_start. -/
def week_dates (week_start : Nat) : List Nat :=
  [week_start, week_start + 1, week_start + 2, week_start + 3, week_start + 4]

/-- Civil calendar date (year, month, day) of a day number, restricted to
nonnegative day numbers; standard days-to-civil conversion. -/
def civilFromDays (z0 : Nat) : Nat × Nat × Nat :=
  let z := z0 + 719468
  let era := z / 146097
  let doe := z % 146097
  let yoe := (doe - doe / 1460 + doe / 36524 - doe / 146096) / 365
  let y := yoe + era * 400
  let doy := doe - (365 * yoe + yoe / 4 - yoe / 100)
  let mp := (5 * doy + 2) / 153
  let dom := doy - (153 * mp + 2) / 5 + 1
  let m := if mp < 10 then mp + 3 else mp - 9
  (if m ≤ 2 then y + 1 else y, m, dom)

/-- Day of month of a day number. -/
def dayOfMonth (d : Nat) : Nat := (civilFromDays d).2.2

/-- Zero-padded two-digit rendering, as strftime uses for the day. -/
def pad2 (n : Nat) : String :=
  if n < 10 then ("0") ++ toString n else toString n

/-! ## Reference entities (models.py shapes used by the core) -/

structure Student where
  id : String
  stage : String
  priority : Int
  solo_eligible : Bool
  required_sorties_per_week : Nat
  availability : Availability
deriving DecidableEq

structure Instructor where
  id : String
  ratings : List String
  sim_instructor : Bool
  max_duty_hours_per_day : ℚ
  availability : Availability
deriving DecidableEq

structure Aircraft where
  id : String
  status : String
  availability_windows : Availability
deriving DecidableEq

structure Simulator where
  id : String
  max_sessions_per_day : Nat
  availability : Availability
deriving DecidableEq

structure TimeSlot where
  id : String
  start_time : String
  end_time : String
deriving DecidableEq

/-! ## sortie_rules.py -/

/-- pick_sortie_type. -/
def pick_sortie_type (student : Student) : String :=
  if student.solo_eligible ∧ student.stage.startsWith ("PPL-4") then ("SOLO")
  else if student.stage = ("PPL-3") ∨ student.stage = ("PPL-4") then ("NAV")
  else if student.stage = ("PPL-2") then ("CIRCUITS")
  else ("CIRCUITS")

/-- instructor_can_teach. -/
def instructor_can_teach (inst : Instructor) (sortie_type : String) : Bool :=
  inst.ratings.contains sortie_type

/-- is_maintenance: grounded status, or a MAINTENANCE window for the day. -/
def is_maintenance (ac : Aircraft) (day_name : String) : Bool :=
  if ac.status = ("MAINTENANCE") ∨ ac.status = ("GROUNDED") then true
  else ((alGet ac.availability_windows day_name).getD []).any
    (fun w => decide (w.toUpper = ("MAINTENANCE")))

/-! ## state.py -/

/-- BookingState: the per-run booking ledger.  Every dict is keyed by the
pair of entity id and date, except weekly_sorties which is keyed by the
student id. -/
structure BookingState where
  booked : List ((String × Nat) × List (String × String))
  duty_hours : List ((String × Nat) × ℚ)
  aircraft_sorties : List ((String × Nat) × Nat)
  sim_sessions : List ((String × Nat) × Nat)
  weekly_sorties : List (String × Nat)
deriving DecidableEq

/-- The empty ledger created at the start of a generation run. -/
def BookingState.empty : BookingState := ⟨[], [], [], [], []⟩

/-- The interval list booked for an entity on a date. -/
def bookedList (st : BookingState) (id : String) (d : Nat) : List (String × String) :=
  (alGet st.booked (id, d)).getD []

/-- is_free: no booked interval for this entity and date overlaps the
half-open candidate window; times are compared as strings, as in the
source. -/
def is_free (st : BookingState) (id : String) (d : Nat) (s e : String) : Bool :=
  (bookedList st id d).all (fun p => decide (e ≤ p.1) || decide (s ≥ p.2))

/-- book: append the interval unconditionally under the entity-date key. -/
def book (st : BookingState) (id : String) (d : Nat) (s e : String) : BookingState :=
  { st with booked := alSet st.booked (id, d) (bookedList st id d ++ [(s, e)]) }

/-- instructor_duty_ok: accumulated hours plus this session plus the one
hour buffer stay within the cap. -/
def instructor_duty_ok (st : BookingState) (id : String) (d : Nat)
    (s e : String) (max_hours : ℚ) : Bool :=
  decide ((alGet st.duty_hours (id, d)).getD 0 + duration_hours s e + 1 ≤ max_hours)

/-- log_instructor_hours. -/
def log_instructor_hours (st : BookingState) (id : String) (d : Nat)
    (s e : String) : BookingState :=
  let v := (alGet st.duty_hours (id, d)).getD 0 + duration_hours s e + 1
  { st with duty_hours := alSet st.duty_hours (id, d) v }

/-- aircraft_sorties_ok with the fixed default cap of two per day. -/
def aircraft_sorties_ok (st : BookingState) (id : String) (d : Nat) : Bool :=
  decide ((alGet st.aircraft_sorties (id, d)).getD 0 < 2)

/-- log_aircraft_sortie. -/
def log_aircraft_sortie (st : BookingState) (id : String) (d : Nat) : BookingState :=
  let v := (alGet st.aircraft_sorties (id, d)).getD 0 + 1
  { st with aircraft_sorties := alSet st.aircraft_sorties (id, d) v }

/-- sim_sessions_ok. -/
def sim_sessions_ok (st : BookingState) (id : String) (d : Nat) (max_sessions : Nat) : Bool :=
  decide ((alGet st.sim_sessions (id, d)).getD 0 < max_sessions)

/-- log_sim_session. -/
def log_sim_session (st : BookingState) (id : String) (d : Nat) : BookingState :=
  let v := (alGet st.sim_sessions (id, d)).getD 0 + 1
  { st with sim_sessions := alSet st.sim_sessions (id, d) v }

/-- student_weekly_ok. -/
def student_weekly_ok (st : BookingState) (id : String) (required : Nat) : Bool :=
  decide ((alGet st.weekly_sorties id).getD 0 < required)

/-- log_student_sortie. -/
def log_student_sortie (st : BookingState) (id : String) : BookingState :=
  { st with weekly_sorties := alSet st.weekly_sorties id ((alGet st.weekly_sorties id).getD 0 + 1) }

/-! ## roster.py -/

/-- RosterSlot: one scheduled assignment; the key named end in the source
dict is end_ here.  The date is a day number (see the header note on
isoformat). -/
structure RosterSlot where
  slot_id : String
  date : Nat
  start : String
  end_ : String
  activity : String
  sortie_type : String
  student_id : String
  instructor_id : String
  resource_id : String
  dispatch_decision : String
  reasons : List String
  citations : List String
deriving DecidableEq

structure DayRoster where
  date : Nat
  slots : List RosterSlot
deriving DecidableEq

structure UnassignedEntry where
  entity : String
  id : String
  reason : String
deriving DecidableEq

structure Roster where
  week_start : Nat
  base_icao : String
  roster : List DayRoster
  unassigned : List UnassignedEntry
deriving DecidableEq

/-- _make_slot. -/
def make_slot (slot_id : String) (start end_ : String) (activity sortie_type : String)
    (student_id instructor_id resource_id : String) (dispatch_decision : String)
    (reasons citations : List String) (date : Nat) : RosterSlot :=
  ⟨slot_id, date, start, end_, activity, sortie_type, student_id, instructor_id,
   resource_id, dispatch_decision, reasons, citations⟩

/-- _find_instructor: first instructor, in input order, that is rated for
the sortie type, available, free and within duty hours. -/
def find_instructor (instructors : List Instructor) (sortie_type day_name : String)
    (slot_start slot_end : String) (day : Nat) (st : BookingState) : Option Instructor :=
  instructors.find? (fun inst =>
    instructor_can_teach inst sortie_type &&
    is_available inst.availability day_name slot_start slot_end &&
    is_free st inst.id day slot_start slot_end &&
    instructor_duty_ok st inst.id day slot_start slot_end inst.max_duty_hours_per_day)

/-- _find_sim_instructor. -/
def find_sim_instructor (instructors : List Instructor) (day_name : String)
    (slot_start slot_end : String) (day : Nat) (st : BookingState) : Option Instructor :=
  instructors.find? (fun inst =>
    inst.sim_instructor &&
    is_available inst.availability day_name slot_start slot_end &&
    is_free st inst.id day slot_start slot_end &&
    instructor_duty_ok st inst.id day slot_start slot_end inst.max_duty_hours_per_day)

/-- _find_aircraft. -/
def find_aircraft (aircraft : List Aircraft) (day_name : String)
    (slot_start slot_end : String) (day : Nat) (st : BookingState) : Option Aircraft :=
  aircraft.find? (fun ac =>
    !is_maintenance ac day_name &&
    is_available ac.availability_windows day_name slot_start slot_end &&
    is_free st ac.id day slot_start slot_end &&
    aircraft_sorties_ok st ac.id day)

/-- _find_simulator. -/
def find_simulator (simulators : List Simulator) (day_name : String)
    (slot_start slot_end : String) (day : Nat) (st : BookingState) : Option Simulator :=
  simulators.find? (fun sim =>
    is_available sim.availability day_name slot_start slot_end &&
    is_free st sim.id day slot_start slot_end &&
    sim_sessions_ok st sim.id day sim.max_sessions_per_day)

/-- The successful FLIGHT booking: three book calls and the three logs, in
source order, plus the emitted slot. -/
def book_flight (st : BookingState) (student : Student) (inst : Instructor)
    (ac : Aircraft) (day : Nat) (slot_start slot_end slot_id sortie_type : String) :
    BookingState × RosterSlot :=
  let st1 := book st student.id day slot_start slot_end
  let st2 := book st1 inst.id day slot_start slot_end
  let st3 := book st2 ac.id day slot_start slot_end
  let st4 := log_instructor_hours st3 inst.id day slot_start slot_end
  let st5 := log_aircraft_sortie st4 ac.id day
  let st6 := log_student_sortie st5 student.id
  (st6, make_slot slot_id slot_start slot_end ("FLIGHT") sortie_type
    student.id inst.id ac.id ("GO")
    [("INSTRUCTOR_CURRENCY_OK"), ("AIRCRAFT_AVAILABLE")]
    [("rules:doc_dispatch#chunk2"), ("rules:doc_dispatch#chunk3")] day)

/-- The successful SIM fallback booking. -/
def book_sim (st : BookingState) (student : Student) (inst : Instructor)
    (sim : Simulator) (day : Nat) (slot_start slot_end slot_id : String) :
    BookingState × RosterSlot :=
  let st1 := book st student.id day slot_start slot_end
  let st2 := book st1 inst.id day slot_start slot_end
  let st3 := book st2 sim.id day slot_start slot_end
  let st4 := log_instructor_hours st3 inst.id day slot_start slot_end
  let st5 := log_sim_session st4 sim.id day
  let st6 := log_student_sortie st5 student.id
  (st6, make_slot slot_id slot_start slot_end ("SIM") ("SIM_PROCEDURES")
    student.id inst.id sim.id ("GO")
    [("NO_AIRCRAFT_AVAILABLE"), ("SIM_FALLBACK")]
    [("rules:doc_dispatch#chunk4")] day)

/-- The body of the per-student loop in generate_roster: none means the
source continues with the next student. -/
def try_student (instructors : List Instructor) (aircraft : List Aircraft)
    (simulators : List Simulator) (day : Nat) (day_name slot_id slot_start slot_end : String)
    (st : BookingState) (student : Student) : Option (BookingState × RosterSlot) :=
  if student_weekly_ok st student.id student.required_sorties_per_week &&
     is_available student.availability day_name slot_start slot_end &&
     is_free st student.id day slot_start slot_end then
    let sortie_type := pick_sortie_type student
    let flight? :=
      match find_instructor instructors sortie_type day_name slot_start slot_end day st with
      | some inst =>
        match find_aircraft aircraft day_name slot_start slot_end day st with
        | some ac => some (book_flight st student inst ac day slot_start slot_end slot_id sortie_type)
        | none => none
      | none => none
    match flight? with
    | some r => some r
    | none =>
      match find_sim_instructor instructors day_name slot_start slot_end day st with
      | some si =>
        match find_simulator simulators day_name slot_start slot_end day st with
        | some sm => some (book_sim st student si sm day slot_start slot_end slot_id)
        | none => none
      | none => none
  else none

/-- First-fit over the priority-sorted student list for one time slot. -/
def assign_slot (instructors : List Instructor) (aircraft : List Aircraft)
    (simulators : List Simulator) (day : Nat) (day_name slot_id slot_start slot_end : String)
    (st : BookingState) : List Student → Option (BookingState × RosterSlot)
  | [] => none
  | stu :: rest =>
    match try_student instructors aircraft simulators day day_name slot_id slot_start slot_end st stu with
    | some r => some r
    | none => assign_slot instructors aircraft simulators day day_name slot_id slot_start slot_end st rest

/-- The per-day loop over time slots, threading the ledger and collecting
the slots of the day in order. -/
def process_slots (sorted_students : List Student) (instructors : List Instructor)
    (aircraft : List Aircraft) (simulators : List Simulator) (day : Nat) (day_name : String) :
    List TimeSlot → BookingState → BookingState × List RosterSlot
  | [], st => (st, [])
  | ts :: rest, st =>
    let slot_id := ("D") ++ pad2 (dayOfMonth day) ++ ("-") ++ ts.id
    match assign_slot instructors aircraft simulators day day_name slot_id ts.start_time ts.end_time st sorted_students with
    | some (st', slot) =>
      ((process_slots sorted_students instructors aircraft simulators day day_name rest st').1,
       slot :: (process_slots sorted_students instructors aircraft simulators day day_name rest st').2)
    | none => process_slots sorted_students instructors aircraft simulators day day_name rest st

/-- The outer loop over the week days. -/
def process_days (sorted_students : List Student) (instructors : List Instructor)
    (aircraft : List Aircraft) (simulators : List Simulator) (time_slots : List TimeSlot) :
    List Nat → BookingState → BookingState × List DayRoster
  | [], st => (st, [])
  | d :: rest, st =>
    let p := process_slots sorted_students instructors aircraft simulators d (get_day_name d) time_slots st
    let q := process_days sorted_students instructors aircraft simulators time_slots rest p.1
    (q.1, ⟨d, p.2⟩ :: q.2)

/-- Stable insertion of a student into a priority-ascending list: the new
element goes before the first strictly later-priority element, after equal
ones. -/
def insort (x : Student) : List Student → List Student
  | [] => [x]
  | y :: rest => if y.priority < x.priority then y :: insort x rest else x :: y :: rest

/-- sorted with the priority key.  Python sorted is a stable comparison
sort, and a stable ascending reordering under a total preorder is unique,
so insertion sort realises it exactly. -/
def sorted_by_priority (students : List Student) : List Student :=
  students.foldr insort []

/-- generate_roster from roster.py. -/
def generate_roster (week_start : Nat) (base_icao : String) (students : List Student)
    (instructors : List Instructor) (aircraft : List Aircraft) (simulators : List Simulator)
    (time_slots : List TimeSlot) : Roster :=
  let sorted_students := sorted_by_priority students
  let p := process_days sorted_students instructors aircraft simulators time_slots
    (week_dates week_start) BookingState.empty
  let roster_days := p.2
  let assigned_ids := ((roster_days.map (fun d => d.slots)).flatten).map (fun s => s.student_id)
  let unassigned := (students.filter (fun s => !assigned_ids.contains s.id)).map
    (fun s => (⟨("student"), s.id, ("No available slot matched constraints")⟩ : UnassignedEntry))
  ⟨week_start, base_icao, roster_days, unassigned⟩

/-- All slots of a roster, in day order. -/
def allSlots (r : Roster) : List RosterSlot :=
  (r.roster.map (fun d => d.slots)).flatten

/-! ## weather/fetcher.py (the deterministic part used by the core) -/

/-- WeatherReport.  The fetched_at wall-clock field of the source is
omitted: no embedded function reads it.  Missing numeric fields are
none. -/
structure WeatherReport where
  icao : String
  ceiling_ft : Option Int
  visibility_sm : Option ℚ
  wind_kt : Option Int
  crosswind_kt : Option Int
  raw_metar : String
  confidence : String
deriving DecidableEq

/-- _fallback: the report returned when a fetch fails. -/
def fallback_report (icao : String) : WeatherReport :=
  ⟨icao, none, none, none, none, ("UNAVAILABLE"), ("unknown")⟩

/-- The named scenarios of get_weather_mock. -/
def WEATHER_SCENARIOS (icao : String) : List (String × WeatherReport) :=
  [(("good"), ⟨icao, some 5000, some 10, some 8, some 2,
      ("VOBG 010800Z 27008KT 9999 FEW050 25/14 Q1013"), ("live")⟩),
   (("low_ceiling"), ⟨icao, some 800, some 8, some 6, some 2,
      ("VOBG 010800Z 27006KT 8000 OVC008 18/16 Q1008"), ("live")⟩),
   (("low_vis"), ⟨icao, some 3000, some 2, some 5, some 1,
      ("VOBG 010800Z 27005KT 3200 BKN030 20/18 Q1010"), ("live")⟩),
   (("high_wind"), ⟨icao, some 4000, some 8, some 25, some 10,
      ("VOBG 010800Z 27025KT 9999 FEW040 22/12 Q1015"), ("live")⟩),
   (("unavailable"), fallback_report icao)]

/-- get_weather_mock: table lookup with the good scenario as default; the
inner default is unreachable because the good key is in the table. -/
def get_weather_mock (icao : String) (scenario : String) : WeatherReport :=
  let scenarios := WEATHER_SCENARIOS icao
  (alGet scenarios scenario).getD ((alGet scenarios ("good")).getD (fallback_report icao))

/-! ## dispatch/engine.py -/

/-- One row of the minima table. -/
structure Minima where
  ceiling_ft : Int
  visibility_sm : ℚ
  wind_kt : Int
  crosswind_kt : Int
deriving DecidableEq

/-- STAGE_MINIMA in dict insertion order. -/
def STAGE_MINIMA : List (String × Minima) :=
  [(("PPL-1"), ⟨2500, 8, 10, 8⟩),
   (("PPL-2"), ⟨2500, 8, 10, 8⟩),
   (("PPL-3"), ⟨1500, 5, 15, 12⟩),
   (("PPL-4"), ⟨1500, 5, 15, 12⟩)]

def SOLO_MINIMA : Minima := ⟨3000, 10, 10, 8⟩

/-- CITATIONS table. -/
def CITATIONS : List (String × String) :=
  [(("ceiling"), ("rules:doc_weather#chunk4")),
   (("visibility"), ("rules:doc_weather#chunk5")),
   (("wind"), ("rules:doc_weather#chunk6")),
   (("solo"), ("rules:doc_weather#chunk7")),
   (("sim_ok"), ("rules:doc_weather#chunk8")),
   (("unavailable"), ("rules:doc_weather#chunk9"))]

/-- Citation lookup; every key used is in the table, so the default is
unreachable. -/
def cite (k : String) : String := (alGet CITATIONS k).getD ("")

/-- _get_stage_minima: first table row whose key is a prefix of the stage,
defaulting to the PPL-1 row. -/
def get_stage_minima (stage : String) : Minima :=
  match STAGE_MINIMA.find? (fun p => stage.startsWith p.1) with
  | some p => p.2
  | none => (alGet STAGE_MINIMA ("PPL-1")).getD ⟨2500, 8, 10, 8⟩

/-- One guarded violation entry of _check_violations: an absent field
contributes nothing, a present field contributes the code when the bound
is crossed. -/
def viol_if {A : Type} (o : Option A) (p : A → Prop) [DecidablePred p] (code : String) :
    List String :=
  match o with
  | some c => if p c then [code] else []
  | none => []

/-- _check_violations; the is_solo argument is unused in the source body
and kept for fidelity. -/
def check_violations (weather : WeatherReport) (minima : Minima) (is_solo : Bool) :
    List String :=
  viol_if weather.ceiling_ft (fun c => c < minima.ceiling_ft) ("WX_BELOW_CEILING_MINIMA") ++
  viol_if weather.visibility_sm (fun v => v < minima.visibility_sm) ("WX_BELOW_VIS_MINIMA") ++
  viol_if weather.wind_kt (fun w => w > minima.wind_kt) ("WX_WIND_EXCEEDED") ++
  viol_if weather.crosswind_kt (fun x => x > minima.crosswind_kt) ("WX_CROSSWIND_EXCEEDED")

/-- Per-simulator per-date usage counter threaded by the callers of
check_dispatch: sim id to date to count. -/
def SimUsage : Type := List (String × List (Nat × Nat))

instance : DecidableEq SimUsage := by
  unfold SimUsage; infer_instance

/-- The counter value read by _find_available_sim. -/
def sim_used (u : SimUsage) (sim_id : String) (date : Nat) : Nat :=
  (alGet ((alGet u sim_id).getD []) date).getD 0

/-- _find_available_sim: first simulator, in input order, with remaining
capacity on the date of the slot. -/
def find_available_sim (slot : RosterSlot) (simulators : List Simulator)
    (sim_slots_used : SimUsage) : Option Simulator :=
  simulators.find? (fun sim =>
    decide (sim_used sim_slots_used sim.id slot.date < sim.max_sessions_per_day))

/-- The local is_solo flag of check_dispatch. -/
def dispatch_is_solo (slot : RosterSlot) : Bool :=
  decide (slot.sortie_type = ("SOLO"))

/-- The minima selected by check_dispatch: solo minima for a SOLO sortie,
stage minima otherwise. -/
def dispatch_minima (slot : RosterSlot) (student : Student) : Minima :=
  if dispatch_is_solo slot then SOLO_MINIMA else get_stage_minima student.stage

/-- The violation list check_dispatch computes for a non-SIM slot under
known-confidence weather. -/
def dispatch_violations (slot : RosterSlot) (student : Student)
    (weather : WeatherReport) : List String :=
  check_violations weather (dispatch_minima slot student) (dispatch_is_solo slot)

/-- check_dispatch: returns a new slot value, never mutating the input. -/
def check_dispatch (slot : RosterSlot) (student : Student) (weather : WeatherReport)
    (simulators : List Simulator) (sim_slots_used : SimUsage) : RosterSlot :=
  if slot.activity = ("SIM") then
    { slot with dispatch_decision := ("GO"),
                reasons := [("SIM_NO_WEATHER_REQUIRED")],
                citations := [cite ("sim_ok")] }
  else if weather.confidence = ("unknown") then
    { slot with dispatch_decision := ("NEEDS_REVIEW"),
                reasons := [("WEATHER_UNAVAILABLE")],
                citations := [cite ("unavailable")] }
  else
    let violations := dispatch_violations slot student weather
    if violations = [] then
      { slot with dispatch_decision := ("GO"),
                  reasons := [("WX_ABOVE_MINIMA")],
                  citations := [cite ("ceiling"), cite ("visibility")] }
    else
      match find_available_sim slot simulators sim_slots_used with
      | some sim =>
        { slot with activity := ("SIM"),
                    sortie_type := ("SIM_PROCEDURES"),
                    resource_id := sim.id,
                    dispatch_decision := ("NO_GO"),
                    reasons := violations ++ [("CONVERTED_TO_SIM")],
                    citations := [cite ("ceiling"), cite ("visibility"), cite ("sim_ok")] }
      | none =>
        { slot with dispatch_decision := ("NO_GO"),
                    reasons := violations ++ [("NO_SIM_AVAILABLE")],
                    citations := [cite ("ceiling"), cite ("visibility")] }

/-! ## reallocation/engine.py -/

/-- DisruptionEvent.  The datetime window is modelled by its date parts;
the correlation id is taken as given (the source draws a fresh uuid when
it is absent). -/
structure DisruptionEvent where
  event_type : String
  entity_id : Option String
  from_time : Option Nat
  to_time : Option Nat
  metadata : List (String × String)
  correlation_id : String
deriving DecidableEq

/-- The per-slot selection predicate of identify_affected_slots: the
optional date window first, then the event-type condition. -/
def slot_matches_event (event : DisruptionEvent) (slot : RosterSlot) : Bool :=
  (match event.from_time, event.to_time with
   | some f, some t => decide (f ≤ slot.date) && decide (slot.date ≤ t)
   | _, _ => true) &&
  (if event.event_type = ("WEATHER_UPDATE") then
     decide (slot.activity = ("FLIGHT"))
   else if event.event_type = ("AIRCRAFT_UNSERVICEABLE") then
     decide (some slot.resource_id = event.entity_id) && decide (slot.activity = ("FLIGHT"))
   else if event.event_type = ("INSTRUCTOR_UNAVAILABLE") then
     decide (some slot.instructor_id = event.entity_id)
   else if event.event_type = ("STUDENT_UNAVAILABLE") then
     decide (some slot.student_id = event.entity_id)
   else false)

/-- identify_affected_slots. -/
def identify_affected_slots (roster : Roster) (event : DisruptionEvent) :
    List RosterSlot :=
  (roster.roster.map (fun day => day.slots.filter (fun s => slot_matches_event event s))).flatten

/-- One recorded field change of a modified slot: field name, old value,
new value. -/
structure FieldChange where
  field : String
  old : String
  new : String
deriving DecidableEq

structure ModifiedEntry where
  slot_id : String
  changes : List FieldChange
deriving DecidableEq

/-- The per-field comparison of compute_roster_diff, in source key
order. -/
def slot_changes (o n : RosterSlot) : List FieldChange :=
  (if o.activity ≠ n.activity then [⟨("activity"), o.activity, n.activity⟩] else []) ++
  (if o.student_id ≠ n.student_id then [⟨("student_id"), o.student_id, n.student_id⟩] else []) ++
  (if o.instructor_id ≠ n.instructor_id then [⟨("instructor_id"), o.instructor_id, n.instructor_id⟩] else []) ++
  (if o.resource_id ≠ n.resource_id then [⟨("resource_id"), o.resource_id, n.resource_id⟩] else []) ++
  (if o.sortie_type ≠ n.sortie_type then [⟨("sortie_type"), o.sortie_type, n.sortie_type⟩] else []) ++
  (if o.dispatch_decision ≠ n.dispatch_decision then [⟨("dispatch_decision"), o.dispatch_decision, n.dispatch_decision⟩] else [])

structure RosterDiff where
  added : List RosterSlot
  removed : List RosterSlot
  modified : List ModifiedEntry
  total_changes : Nat
deriving DecidableEq

/-- The slot dict of a roster, keyed by slot id, built exactly as the dict
comprehension of the source builds it. -/
def slotsDict (r : Roster) : List (String × RosterSlot) :=
  (allSlots r).foldl (fun m s => alSet m s.slot_id s) []

/-- compute_roster_diff.  The source iterates the modified keys over an
unordered set intersection; the embedding iterates over the old dict in
order, which yields the same entries. -/
def compute_roster_diff (old_roster new_roster : Roster) : RosterDiff :=
  let old_slots := slotsDict old_roster
  let new_slots := slotsDict new_roster
  let added := (new_slots.filter (fun p => !alHasKey old_slots p.1)).map (fun p => p.2)
  let removed := (old_slots.filter (fun p => !alHasKey new_slots p.1)).map (fun p => p.2)
  let modified := old_slots.filterMap (fun p =>
    match alGet new_slots p.1 with
    | none => none
    | some n =>
      let changes := slot_changes p.2 n
      if changes = [] then none else some (⟨p.1, changes⟩ : ModifiedEntry))
  ⟨added, removed, modified, added.length + removed.length + modified.length⟩

/-- compute_churn_rate. -/
def compute_churn_rate (diff : RosterDiff) (total_slots : Nat) : ℚ :=
  if total_slots = 0 then 0
  else ((diff.total_changes : ℚ) / (total_slots : ℚ)) * 100

/-- The increment of the sim usage counter performed by the weather
replanning loop after a conversion. -/
def sim_used_inc (u : SimUsage) (sim_id : String) (date : Nat) : SimUsage :=
  let inner := (alGet u sim_id).getD []
  alSet u sim_id (alSet inner date ((alGet inner date).getD 0 + 1))

/-- The slot loop of the WEATHER_UPDATE branch over one day: FLIGHT slots
are re-dispatched, other slots pass through; none models the KeyError the
source raises when a student id is missing from the catalog. -/
def redispatch_slots (students_map : List (String × Student)) (weather : WeatherReport)
    (simulators : List Simulator) :
    List RosterSlot → SimUsage → Option (List RosterSlot × SimUsage)
  | [], u => some ([], u)
  | slot :: rest, u =>
    if slot.activity = ("FLIGHT") then
      match alGet students_map slot.student_id with
      | none => none
      | some student =>
        let updated := check_dispatch slot student weather simulators u
        let u' := if updated.activity = ("SIM") then sim_used_inc u updated.resource_id slot.date else u
        match redispatch_slots students_map weather simulators rest u' with
        | some (slots, uF) => some (updated :: slots, uF)
        | none => none
    else
      match redispatch_slots students_map weather simulators rest u with
      | some (slots, uF) => some (slot :: slots, uF)
      | none => none

/-- The day loop of the WEATHER_UPDATE branch. -/
def redispatch_days (students_map : List (String × Student)) (weather : WeatherReport)
    (simulators : List Simulator) :
    List DayRoster → SimUsage → Option (List DayRoster × SimUsage)
  | [], u => some ([], u)
  | day :: rest, u =>
    match redispatch_slots students_map weather simulators day.slots u with
    | none => none
    | some (slots, u') =>
      match redispatch_days students_map weather simulators rest u' with
      | none => none
      | some (days, uF) => some ({ day with slots := slots } :: days, uF)

/-- The marking applied to affected slots by the three entity
unavailability branches. -/
def mark_disruption (event : DisruptionEvent) (affected : List RosterSlot)
    (slot : RosterSlot) : RosterSlot :=
  if affected.contains slot then
    { slot with dispatch_decision := ("NEEDS_REVIEW"),
                reasons := [event.event_type ++ ("_DISRUPTION")],
                citations := [("rules:doc_dispatch#disruption")] }
  else slot

structure ReallocationResult where
  new_roster : Roster
  diff : RosterDiff
  affected_slots : List RosterSlot
  churn_rate : ℚ
  correlation_id : String
  event_type : String
deriving DecidableEq

/-- reallocate_roster.  The students, instructors, aircraft, time_slots
and weather_data parameters mirror the source signature; only students,
simulators and weather_data are read.  none models an uncaught KeyError in
the weather branch. -/
def reallocate_roster (current_roster : Roster) (event : DisruptionEvent)
    (students : List Student) (_instructors : List Instructor) (_aircraft : List Aircraft)
    (simulators : List Simulator) (_time_slots : List TimeSlot)
    (weather_data : Option WeatherReport) : Option ReallocationResult :=
  let affected := identify_affected_slots current_roster event
  let modified? : Option Roster :=
    if event.event_type = ("WEATHER_UPDATE") then
      let weather :=
        match weather_data with
        | some w => w
        | none => get_weather_mock current_roster.base_icao
            ((alGet event.metadata ("weather_scenario")).getD ("good"))
      let students_map := students.foldl (fun m s => alSet m s.id s) []
      match redispatch_days students_map weather simulators current_roster.roster [] with
      | some (days, _) => some { current_roster with roster := days }
      | none => none
    else if event.event_type = ("AIRCRAFT_UNSERVICEABLE") ∨
            event.event_type = ("INSTRUCTOR_UNAVAILABLE") ∨
            event.event_type = ("STUDENT_UNAVAILABLE") then
      some { current_roster with roster := current_roster.roster.map (fun day =>
        { day with slots := day.slots.map (fun s => mark_disruption event affected s) }) }
    else
      some current_roster
  match modified? with
  | none => none
  | some modified =>
    let diff := compute_roster_diff current_roster modified
    let total_slots := (current_roster.roster.map (fun d => d.slots.length)).sum
    some ⟨modified, diff, affected, compute_churn_rate diff total_slots,
          event.correlation_id, event.event_type⟩

/-! ## Dictionary lemmas -/

lemma alGet_nil {K V : Type} [DecidableEq K] (k : K) :
    alGet ([] : List (K × V)) k = none := rfl

lemma alGet_cons {K V : Type} [DecidableEq K] (p : K × V) (m : List (K × V)) (k : K) :
    alGet (p :: m) k = if p.1 = k then some p.2 else alGet m k := by
  by_cases h : p.1 = k <;> simp [alGet, List.find?, h]

lemma alGet_eq_none_of_not_any {K V : Type} [DecidableEq K] (m : List (K × V)) (k : K)
    (h : m.any (fun p => decide (p.1 = k)) = false) : alGet m k = none := by
  induction m with
  | nil => rfl
  | cons p m ih =>
    simp only [List.any_cons, Bool.or_eq_false_iff] at h
    rw [alGet_cons, if_neg (of_decide_eq_false h.1)]
    exact ih h.2

lemma alGet_isSome_of_any {K V : Type} [DecidableEq K] (m : List (K × V)) (k : K)
    (h : m.any (fun p => decide (p.1 = k)) = true) : (alGet m k).isSome = true := by
  induction m with
  | nil => simp at h
  | cons p m ih =>
    rw [alGet_cons]
    by_cases hp : p.1 = k
    · rw [if_pos hp]; rfl
    · rw [if_neg hp]
      simp only [List.any_cons, Bool.or_eq_true] at h
      rcases h with h | h
      · exact absurd (of_decide_eq_true h) hp
      · exact ih h

lemma alGet_map_set {K V : Type} [DecidableEq K] (m : List (K × V)) (k k' : K) (v : V) :
    alGet (m.map (fun p => if p.1 = k then (k, v) else p)) k' =
      if k' = k then (alGet m k).map (fun _ => v) else alGet m k' := by
  induction m with
  | nil => by_cases h : k' = k <;> simp [alGet, h]
  | cons p m ih =>
    simp only [List.map_cons]
    by_cases hp : p.1 = k
    · rw [if_pos hp]
      by_cases hk : k' = k
      · subst hk
        rw [if_pos rfl, alGet_cons, if_pos rfl, alGet_cons, if_pos hp]
        rfl
      · have h1 : ¬ ((k, v).1 = k') := fun hh => hk hh.symm
        have h2 : ¬ (p.1 = k') := fun hh => hk (hh.symm.trans hp)
        rw [alGet_cons, if_neg h1, ih, if_neg hk, if_neg hk, alGet_cons, if_neg h2]
    · rw [if_neg hp, alGet_cons]
      by_cases hpk : p.1 = k'
      · have hk : ¬ (k' = k) := fun hh => hp (hpk.trans hh)
        rw [if_pos hpk, if_neg hk, alGet_cons, if_pos hpk]
      · rw [if_neg hpk, ih]
        by_cases hk : k' = k
        · rw [if_pos hk, if_pos hk, alGet_cons, if_neg hp]
        · rw [if_neg hk, if_neg hk, alGet_cons, if_neg hpk]

lemma alGet_append_single {K V : Type} [DecidableEq K] (m : List (K × V)) (k k' : K) (v : V) :
    alGet (m ++ [(k, v)]) k' =
      match alGet m k' with
      | some w => some w
      | none => if k' = k then some v else none := by
  induction m with
  | nil =>
    by_cases hk : k' = k
    · simp [alGet_cons, alGet_nil, hk]
    · have : ¬ ((k, v).1 = k') := fun hh => hk hh.symm
      simp only [List.nil_append, alGet_cons, if_neg this, alGet_nil]
      rw [if_neg hk]
  | cons p m ih =>
    by_cases hpk : p.1 = k'
    · simp [alGet_cons, hpk]
    · simp only [List.cons_append, alGet_cons, if_neg hpk]
      exact ih

/-- The dict access law for Python dict assignment. -/
lemma alGet_alSet {K V : Type} [DecidableEq K] (m : List (K × V)) (k k' : K) (v : V) :
    alGet (alSet m k v) k' = if k' = k then some v else alGet m k' := by
  unfold alSet
  by_cases hany : m.any (fun p => decide (p.1 = k)) = true
  · rw [if_pos hany, alGet_map_set]
    by_cases hk : k' = k
    · rw [if_pos hk, if_pos hk]
      have := alGet_isSome_of_any m k hany
      cases hget : alGet m k with
      | some w => rfl
      | none => rw [hget] at this; simp at this
    · rw [if_neg hk, if_neg hk]
  · rw [if_neg hany, alGet_append_single]
    by_cases hk : k' = k
    · subst hk
      have hnone : alGet m k' = none :=
        alGet_eq_none_of_not_any m k' (Bool.eq_false_iff.mpr hany)
      rw [hnone]
    · cases hget : alGet m k' with
      | some w => simp [hk]
      | none => simp [hk]

/-! ## Booking ledger lemmas -/

/-- The interval recorded for an entity and date. -/
def Booked (st : BookingState) (id : String) (d : Nat) (s e : String) : Prop :=
  (s, e) ∈ bookedList st id d

lemma bookedList_book_self (st : BookingState) (id : String) (d : Nat) (s e : String) :
    bookedList (book st id d s e) id d = bookedList st id d ++ [(s, e)] := by
  simp [bookedList, book, alGet_alSet]

lemma bookedList_book_other (st : BookingState) (id id' : String) (d d' : Nat)
    (s e : String) (h : ¬ ((id', d') = (id, d))) :
    bookedList (book st id d s e) id' d' = bookedList st id' d' := by
  simp only [bookedList, book, alGet_alSet, if_neg h]

lemma Booked_book_mono (st : BookingState) (id id' : String) (d d' : Nat)
    (s e s' e' : String) (h : Booked st id' d' s' e') :
    Booked (book st id d s e) id' d' s' e' := by
  by_cases hk : (id', d') = (id, d)
  · have h1 : id' = id := (Prod.mk.injEq .. ▸ hk).1
    have h2 : d' = d := (Prod.mk.injEq .. ▸ hk).2
    subst h1; subst h2
    unfold Booked at *
    rw [bookedList_book_self]
    exact List.mem_append_left _ h
  · unfold Booked at *
    rwa [bookedList_book_other st id id' d d' s e hk]

lemma Booked_book_self (st : BookingState) (id : String) (d : Nat) (s e : String) :
    Booked (book st id d s e) id d s e := by
  unfold Booked
  rw [bookedList_book_self]
  exact List.mem_append_right _ (List.mem_singleton.mpr rfl)

/-- The overlap predicate of is_free, as the source writes it. -/
def timesOverlap (s e s' e' : String) : Bool :=
  !(decide (e ≤ s') || decide (s ≥ e'))

lemma not_overlap_of_free (st : BookingState) (id : String) (d : Nat)
    (s e s' e' : String) (hfree : is_free st id d s e = true)
    (hb : Booked st id d s' e') : timesOverlap s e s' e' = false := by
  unfold is_free at hfree
  have := (List.all_eq_true.mp hfree) (s', e') hb
  unfold timesOverlap
  simp only at this
  rw [this]
  rfl

lemma timesOverlap_symm (a b c d : String) :
    timesOverlap a b c d = timesOverlap c d a b := by
  unfold timesOverlap
  rw [Bool.or_comm]

/-! ## Generator invariant: specification of one booking attempt -/

/-- The three entity ids of a slot, as the double-booking check of the
source test reads them. -/
def slotIds (s : RosterSlot) : List String :=
  [s.student_id, s.instructor_id, s.resource_id]

lemma Booked_book_flight_mono (st : BookingState) (stu : Student) (inst : Instructor)
    (ac : Aircraft) (day : Nat) (s e sid stype : String) (i : String) (dd : Nat)
    (a b : String) (h : Booked st i dd a b) :
    Booked (book_flight st stu inst ac day s e sid stype).1 i dd a b :=
  Booked_book_mono _ _ _ _ _ _ _ _ _
    (Booked_book_mono _ _ _ _ _ _ _ _ _
      (Booked_book_mono _ _ _ _ _ _ _ _ _ h))

lemma Booked_book_flight_ids (st : BookingState) (stu : Student) (inst : Instructor)
    (ac : Aircraft) (day : Nat) (s e sid stype : String) :
    Booked (book_flight st stu inst ac day s e sid stype).1 stu.id day s e ∧
    Booked (book_flight st stu inst ac day s e sid stype).1 inst.id day s e ∧
    Booked (book_flight st stu inst ac day s e sid stype).1 ac.id day s e :=
  ⟨Booked_book_mono _ _ _ _ _ _ _ _ _
      (Booked_book_mono _ _ _ _ _ _ _ _ _ (Booked_book_self _ _ _ _ _)),
   Booked_book_mono _ _ _ _ _ _ _ _ _ (Booked_book_self _ _ _ _ _),
   Booked_book_self _ _ _ _ _⟩

lemma Booked_book_sim_mono (st : BookingState) (stu : Student) (inst : Instructor)
    (sim : Simulator) (day : Nat) (s e sid : String) (i : String) (dd : Nat)
    (a b : String) (h : Booked st i dd a b) :
    Booked (book_sim st stu inst sim day s e sid).1 i dd a b :=
  Booked_book_mono _ _ _ _ _ _ _ _ _
    (Booked_book_mono _ _ _ _ _ _ _ _ _
      (Booked_book_mono _ _ _ _ _ _ _ _ _ h))

lemma Booked_book_sim_ids (st : BookingState) (stu : Student) (inst : Instructor)
    (sim : Simulator) (day : Nat) (s e sid : String) :
    Booked (book_sim st stu inst sim day s e sid).1 stu.id day s e ∧
    Booked (book_sim st stu inst sim day s e sid).1 inst.id day s e ∧
    Booked (book_sim st stu inst sim day s e sid).1 sim.id day s e :=
  ⟨Booked_book_mono _ _ _ _ _ _ _ _ _
      (Booked_book_mono _ _ _ _ _ _ _ _ _ (Booked_book_self _ _ _ _ _)),
   Booked_book_mono _ _ _ _ _ _ _ _ _ (Booked_book_self _ _ _ _ _),
   Booked_book_self _ _ _ _ _⟩

/-- Everything the invariant needs from one successful booking attempt: the
emitted slot carries the day and the window of the time slot, each of its
ids was free for that window beforehand, the ledger only grows, and the
three ids are booked afterwards. -/
lemma try_student_spec {instructors : List Instructor} {aircraft : List Aircraft}
    {simulators : List Simulator} {day : Nat} {day_name slot_id slot_start slot_end : String}
    {st : BookingState} {student : Student} {st' : BookingState} {slot : RosterSlot}
    (h : try_student instructors aircraft simulators day day_name slot_id slot_start slot_end st student = some (st', slot)) :
    slot.date = day ∧ slot.start = slot_start ∧ slot.end_ = slot_end ∧
    (∀ x ∈ slotIds slot, is_free st x day slot_start slot_end = true) ∧
    (∀ i dd a b, Booked st i dd a b → Booked st' i dd a b) ∧
    (∀ x ∈ slotIds slot, Booked st' x day slot_start slot_end) := by
  simp only [try_student] at h
  by_cases hcond : ((student_weekly_ok st student.id student.required_sorties_per_week &&
      is_available student.availability day_name slot_start slot_end) &&
        is_free st student.id day slot_start slot_end) = true
  case neg =>
    rw [if_neg (by simpa using hcond)] at h
    cases h
  case pos =>
    rw [if_pos (by simpa using hcond)] at h
    simp only [Bool.and_eq_true] at hcond
    obtain ⟨⟨hweek, havail⟩, hfreestu⟩ := hcond
    cases hI : find_instructor instructors (pick_sortie_type student) day_name slot_start slot_end day st with
    | some inst =>
      have hIpred := List.find?_some hI
      simp only [Bool.and_eq_true] at hIpred
      cases hA : find_aircraft aircraft day_name slot_start slot_end day st with
      | some ac =>
        have hApred := List.find?_some hA
        simp only [Bool.and_eq_true] at hApred
        rw [hI, hA] at h
        simp only [] at h
        have hpair : book_flight st student inst ac day slot_start slot_end slot_id (pick_sortie_type student) = (st', slot) := by
          injection h
        have hst : st' = (book_flight st student inst ac day slot_start slot_end slot_id (pick_sortie_type student)).1 := by
          rw [hpair]
        have hslot : slot = (book_flight st student inst ac day slot_start slot_end slot_id (pick_sortie_type student)).2 := by
          rw [hpair]
        subst hst
        subst hslot
        refine ⟨rfl, rfl, rfl, ?_, ?_, ?_⟩
        · intro x hx
          simp only [book_flight, slotIds, make_slot, List.mem_cons,
            List.mem_singleton, List.not_mem_nil, or_false] at hx
          rcases hx with rfl | rfl | rfl
          · exact hfreestu
          · exact hIpred.1.2
          · exact hApred.1.2
        · intro i dd a b hb
          exact Booked_book_flight_mono _ _ _ _ _ _ _ _ _ _ _ _ _ hb
        · intro x hx
          simp only [book_flight, slotIds, make_slot, List.mem_cons,
            List.mem_singleton, List.not_mem_nil, or_false] at hx
          obtain ⟨hb1, hb2, hb3⟩ := Booked_book_flight_ids st student inst ac day slot_start slot_end slot_id (pick_sortie_type student)
          rcases hx with rfl | rfl | rfl
          · exact hb1
          · exact hb2
          · exact hb3
      | none =>
        rw [hI, hA] at h
        simp only [] at h
        cases hS : find_sim_instructor instructors day_name slot_start slot_end day st with
        | some si =>
          have hSpred := List.find?_some hS
          simp only [Bool.and_eq_true] at hSpred
          cases hM : find_simulator simulators day_name slot_start slot_end day st with
          | some sm =>
            have hMpred := List.find?_some hM
            simp only [Bool.and_eq_true] at hMpred
            rw [hS, hM] at h
            simp only [] at h
            have hpair : book_sim st student si sm day slot_start slot_end slot_id = (st', slot) := by
              injection h
            have hst : st' = (book_sim st student si sm day slot_start slot_end slot_id).1 := by
              rw [hpair]
            have hslot : slot = (book_sim st student si sm day slot_start slot_end slot_id).2 := by
              rw [hpair]
            subst hst
            subst hslot
            refine ⟨rfl, rfl, rfl, ?_, ?_, ?_⟩
            · intro x hx
              simp only [book_sim, slotIds, make_slot, List.mem_cons,
                List.mem_singleton, List.not_mem_nil, or_false] at hx
              rcases hx with rfl | rfl | rfl
              · exact hfreestu
              · exact hSpred.1.2
              · exact hMpred.1.2
            · intro i dd a b hb
              exact Booked_book_sim_mono _ _ _ _ _ _ _ _ _ _ _ _ hb
            · intro x hx
              simp only [book_sim, slotIds, make_slot, List.mem_cons,
                List.mem_singleton, List.not_mem_nil, or_false] at hx
              obtain ⟨hb1, hb2, hb3⟩ := Booked_book_sim_ids st student si sm day slot_start slot_end slot_id
              rcases hx with rfl | rfl | rfl
              · exact hb1
              · exact hb2
              · exact hb3
          | none =>
            rw [hS, hM] at h
            simp at h
        | none =>
          rw [hS] at h
          simp at h
    | none =>
      rw [hI] at h
      simp only [] at h
      cases hS : find_sim_instructor instructors day_name slot_start slot_end day st with
      | some si =>
        have hSpred := List.find?_some hS
        simp only [Bool.and_eq_true] at hSpred
        cases hM : find_simulator simulators day_name slot_start slot_end day st with
        | some sm =>
          have hMpred := List.find?_some hM
          simp only [Bool.and_eq_true] at hMpred
          rw [hS, hM] at h
          simp only [] at h
          have hpair : book_sim st student si sm day slot_start slot_end slot_id = (st', slot) := by
            injection h
          have hst : st' = (book_sim st student si sm day slot_start slot_end slot_id).1 := by
            rw [hpair]
          have hslot : slot = (book_sim st student si sm day slot_start slot_end slot_id).2 := by
            rw [hpair]
          subst hst
          subst hslot
          refine ⟨rfl, rfl, rfl, ?_, ?_, ?_⟩
          · intro x hx
            simp only [book_sim, slotIds, make_slot, List.mem_cons,
              List.mem_singleton, List.not_mem_nil, or_false] at hx
            rcases hx with rfl | rfl | rfl
            · exact hfreestu
            · exact hSpred.1.2
            · exact hMpred.1.2
          · intro i dd a b hb
            exact Booked_book_sim_mono _ _ _ _ _ _ _ _ _ _ _ _ hb
          · intro x hx
            simp only [book_sim, slotIds, make_slot, List.mem_cons,
              List.mem_singleton, List.not_mem_nil, or_false] at hx
            obtain ⟨hb1, hb2, hb3⟩ := Booked_book_sim_ids st student si sm day slot_start slot_end slot_id
            rcases hx with rfl | rfl | rfl
            · exact hb1
            · exact hb2
            · exact hb3
        | none =>
          rw [hS, hM] at h
          simp at h
      | none =>
        rw [hS] at h
        simp at h

/-- assign_slot inherits the specification of the attempt that
succeeded. -/
lemma assign_slot_spec {instructors : List Instructor} {aircraft : List Aircraft}
    {simulators : List Simulator} {day : Nat} {day_name slot_id slot_start slot_end : String}
    {st st' : BookingState} {slot : RosterSlot} {students : List Student}
    (h : assign_slot instructors aircraft simulators day day_name slot_id slot_start slot_end st students = some (st', slot)) :
    slot.date = day ∧ slot.start = slot_start ∧ slot.end_ = slot_end ∧
    (∀ x ∈ slotIds slot, is_free st x day slot_start slot_end = true) ∧
    (∀ i dd a b, Booked st i dd a b → Booked st' i dd a b) ∧
    (∀ x ∈ slotIds slot, Booked st' x day slot_start slot_end) := by
  induction students with
  | nil => simp [assign_slot] at h
  | cons stu rest ih =>
    simp only [assign_slot] at h
    cases htry : try_student instructors aircraft simulators day day_name slot_id slot_start slot_end st stu with
    | some r =>
      rw [htry] at h
      simp only [] at h
      rw [h] at htry
      exact try_student_spec htry
    | none =>
      rw [htry] at h
      simp only [] at h
      exact ih h

/-- No two booked ids of compatible slots collide: the pairwise relation of
the no-double-booking invariant. -/
def disjointIds (a b : RosterSlot) : Bool :=
  (slotIds a).all (fun x => !((slotIds b).contains x))

lemma disjointIds_iff (a b : RosterSlot) :
    disjointIds a b = true ↔ ∀ x ∈ slotIds a, x ∉ slotIds b := by
  simp [disjointIds, List.all_eq_true]

lemma disjointIds_of_symm (a b : RosterSlot) (h : disjointIds a b = true) :
    disjointIds b a = true := by
  rw [disjointIds_iff] at *
  intro x hxb hxa
  exact h x hxa hxb

/-- Two slots are compatible when a same-date overlap forces disjoint
ids. -/
def SlotCompat (a b : RosterSlot) : Prop :=
  a.date = b.date → timesOverlap a.start a.end_ b.start b.end_ = true →
    disjointIds a b = true

lemma SlotCompat_symm (a b : RosterSlot) (h : SlotCompat a b) : SlotCompat b a := by
  intro hd ho
  rw [timesOverlap_symm] at ho
  exact disjointIds_of_symm a b (h hd.symm ho)

/-- Coverage: every id of the slot is booked in the ledger at the date and
window of the slot. -/
def BookedAll (st : BookingState) (t : RosterSlot) : Prop :=
  ∀ x ∈ slotIds t, Booked st x t.date t.start t.end_

/-- One successful assignment extends the emitted prefix while keeping
coverage and pairwise compatibility. -/
lemma invariant_step {instructors : List Instructor} {aircraft : List Aircraft}
    {simulators : List Simulator} {day : Nat} {day_name slot_id slot_start slot_end : String}
    {st st' : BookingState} {slot : RosterSlot} {students : List Student}
    (h : assign_slot instructors aircraft simulators day day_name slot_id slot_start slot_end st students = some (st', slot))
    (acc : List RosterSlot) (hcov : ∀ t ∈ acc, BookedAll st t)
    (hpw : acc.Pairwise SlotCompat) :
    (∀ t ∈ acc ++ [slot], BookedAll st' t) ∧ (acc ++ [slot]).Pairwise SlotCompat := by
  obtain ⟨hdate, hstart, hend, hfree, hmono, hbooked⟩ := assign_slot_spec h
  constructor
  · intro t ht
    rcases List.mem_append.mp ht with ht | ht
    · intro x hx
      exact hmono _ _ _ _ (hcov t ht x hx)
    · rcases List.mem_singleton.mp ht with rfl
      intro x hx
      rw [hdate, hstart, hend]
      exact hbooked x hx
  · rw [List.pairwise_append]
    refine ⟨hpw, List.pairwise_singleton _ _, ?_⟩
    intro t ht u hu
    rcases List.mem_singleton.mp hu with rfl
    intro hd ho
    rw [disjointIds_iff]
    intro x hxt hxu
    have hfree' : is_free st x day slot_start slot_end = true := hfree x hxu
    have hbt : Booked st x t.date t.start t.end_ := hcov t ht x hxt
    rw [hd, hdate] at hbt
    have hno := not_overlap_of_free st x day slot_start slot_end t.start t.end_ hfree' hbt
    rw [hstart, hend] at ho
    rw [timesOverlap_symm] at ho
    rw [ho] at hno
    cases hno

/-- The per-day loop keeps coverage and pairwise compatibility. -/
lemma process_slots_inv (ss : List Student) (instructors : List Instructor)
    (aircraft : List Aircraft) (simulators : List Simulator) (day : Nat) (day_name : String)
    (l : List TimeSlot) (st : BookingState) (acc : List RosterSlot)
    (hcov : ∀ t ∈ acc, BookedAll st t) (hpw : acc.Pairwise SlotCompat) :
    (∀ t ∈ acc ++ (process_slots ss instructors aircraft simulators day day_name l st).2,
      BookedAll (process_slots ss instructors aircraft simulators day day_name l st).1 t) ∧
    (acc ++ (process_slots ss instructors aircraft simulators day day_name l st).2).Pairwise SlotCompat := by
  induction l generalizing st acc with
  | nil =>
    simp only [process_slots, List.append_nil]
    exact ⟨hcov, hpw⟩
  | cons ts rest ih =>
    simp only [process_slots]
    cases hassign : assign_slot instructors aircraft simulators day day_name
        (("D") ++ pad2 (dayOfMonth day) ++ ("-") ++ ts.id) ts.start_time ts.end_time st ss with
    | none =>
      simp only []
      exact ih st acc hcov hpw
    | some r =>
      obtain ⟨st1, slot⟩ := r
      simp only []
      have hstep := invariant_step hassign acc hcov hpw
      have hrec := ih st1 (acc ++ [slot]) hstep.1 hstep.2
      have heq : (acc ++ [slot]) ++ (process_slots ss instructors aircraft simulators day day_name rest st1).2 =
          acc ++ slot :: (process_slots ss instructors aircraft simulators day day_name rest st1).2 := by
        simp
      rw [heq] at hrec
      exact hrec

/-- The week loop keeps coverage and pairwise compatibility over the
flattened emitted slots. -/
lemma process_days_inv (ss : List Student) (instructors : List Instructor)
    (aircraft : List Aircraft) (simulators : List Simulator) (time_slots : List TimeSlot)
    (l : List Nat) (st : BookingState) (acc : List RosterSlot)
    (hcov : ∀ t ∈ acc, BookedAll st t) (hpw : acc.Pairwise SlotCompat) :
    (∀ t ∈ acc ++ (((process_days ss instructors aircraft simulators time_slots l st).2.map (fun d => d.slots)).flatten),
      BookedAll (process_days ss instructors aircraft simulators time_slots l st).1 t) ∧
    (acc ++ (((process_days ss instructors aircraft simulators time_slots l st).2.map (fun d => d.slots)).flatten)).Pairwise SlotCompat := by
  induction l generalizing st acc with
  | nil =>
    simp only [process_days, List.map_nil, List.flatten_nil, List.append_nil]
    exact ⟨hcov, hpw⟩
  | cons d rest ih =>
    simp only [process_days, List.map_cons, List.flatten_cons]
    have h1 := process_slots_inv ss instructors aircraft simulators d (get_day_name d) time_slots st acc hcov hpw
    have hrec := ih (process_slots ss instructors aircraft simulators d (get_day_name d) time_slots st).1
      (acc ++ (process_slots ss instructors aircraft simulators d (get_day_name d) time_slots st).2) h1.1 h1.2
    rw [List.append_assoc] at hrec
    exact hrec

/-- The invariant at the top level: the slots of a generated roster are
pairwise compatible. -/
lemma generate_roster_pairwise (week_start : Nat) (base_icao : String)
    (students : List Student) (instructors : List Instructor) (aircraft : List Aircraft)
    (simulators : List Simulator) (time_slots : List TimeSlot) :
    (allSlots (generate_roster week_start base_icao students instructors aircraft simulators time_slots)).Pairwise SlotCompat := by
  have h := process_days_inv (sorted_by_priority students)
    instructors aircraft simulators time_slots (week_dates week_start) BookingState.empty []
    (by intro t ht; cases ht) List.Pairwise.nil
  have h2 := h.2
  rw [List.nil_append] at h2
  simp only [generate_roster, allSlots]
  exact h2

/-! ## Claim C1 -/

/-- C1: for every roster produced by generate_roster, over any reference
catalogs and time slots, no entity id occupies two time-overlapping slots
on the same date: any two distinct slots of the output with the same date
whose half-open windows overlap have disjoint id sets, over student,
instructor and resource ids together. -/
theorem C1_generate_roster_no_double_booking
    (week_start : Nat) (base_icao : String) (students : List Student)
    (instructors : List Instructor) (aircraft : List Aircraft)
    (simulators : List Simulator) (time_slots : List TimeSlot)
    (i j : Nat)
    (hi : i < (allSlots (generate_roster week_start base_icao students instructors aircraft simulators time_slots)).length)
    (hj : j < (allSlots (generate_roster week_start base_icao students instructors aircraft simulators time_slots)).length)
    (hne : i ≠ j)
    (hdate : ((allSlots (generate_roster week_start base_icao students instructors aircraft simulators time_slots)).get ⟨i, hi⟩).date =
      ((allSlots (generate_roster week_start base_icao students instructors aircraft simulators time_slots)).get ⟨j, hj⟩).date)
    (hover : timesOverlap
      ((allSlots (generate_roster week_start base_icao students instructors aircraft simulators time_slots)).get ⟨i, hi⟩).start
      ((allSlots (generate_roster week_start base_icao students instructors aircraft simulators time_slots)).get ⟨i, hi⟩).end_
      ((allSlots (generate_roster week_start base_icao students instructors aircraft simulators time_slots)).get ⟨j, hj⟩).start
      ((allSlots (generate_roster week_start base_icao students instructors aircraft simulators time_slots)).get ⟨j, hj⟩).end_ = true) :
    disjointIds
      ((allSlots (generate_roster week_start base_icao students instructors aircraft simulators time_slots)).get ⟨i, hi⟩)
      ((allSlots (generate_roster week_start base_icao students instructors aircraft simulators time_slots)).get ⟨j, hj⟩) = true := by
  have hp := generate_roster_pairwise week_start base_icao students instructors aircraft simulators time_slots
  rcases Nat.lt_trichotomy i j with hij | hij | hij
  · exact List.pairwise_iff_get.mp hp ⟨i, hi⟩ ⟨j, hj⟩ (Fin.mk_lt_mk.mpr hij) hdate hover
  · exact absurd hij hne
  · have hc := List.pairwise_iff_get.mp hp ⟨j, hj⟩ ⟨i, hi⟩ (Fin.mk_lt_mk.mpr hij)
    exact SlotCompat_symm _ _ hc hdate hover

def w1Students : List Student :=
  [⟨("S1"), ("PPL-2"), 1, false, 1, [(("Mon"), [("07:00-12:00")])]⟩,
   ⟨("S2"), ("PPL-2"), 2, false, 1, [(("Mon"), [("07:00-12:00")])]⟩]

def w1Instructors : List Instructor :=
  [⟨("I1"), [("CIRCUITS")], false, 10, [(("Mon"), [("07:00-12:00")])]⟩,
   ⟨("I2"), [("CIRCUITS")], false, 10, [(("Mon"), [("07:00-12:00")])]⟩]

def w1Aircraft : List Aircraft :=
  [⟨("A1"), ("OK"), [(("Mon"), [("07:00-12:00")])]⟩,
   ⟨("A2"), ("OK"), [(("Mon"), [("07:00-12:00")])]⟩]

def w1TimeSlots : List TimeSlot :=
  [⟨("T1"), ("08:00"), ("09:00")⟩, ⟨("T2"), ("08:30"), ("09:30")⟩]

/-- A concrete generated roster whose Monday holds two overlapping slots
with disjoint ids: day 4 is Monday 1970-01-05. -/
def w1Roster : Roster :=
  generate_roster 4 ("VOBG") w1Students w1Instructors w1Aircraft [] w1TimeSlots

/-- C1 witness: the hypotheses of the theorem hold at a concrete input and
the conclusion follows by the theorem. -/
theorem C1_witness :
    (0 : Nat) ≠ 1 ∧
    ∃ (h0 : 0 < (allSlots w1Roster).length) (h1 : 1 < (allSlots w1Roster).length),
      ((allSlots w1Roster).get ⟨0, h0⟩).date = ((allSlots w1Roster).get ⟨1, h1⟩).date ∧
      timesOverlap ((allSlots w1Roster).get ⟨0, h0⟩).start ((allSlots w1Roster).get ⟨0, h0⟩).end_
        ((allSlots w1Roster).get ⟨1, h1⟩).start ((allSlots w1Roster).get ⟨1, h1⟩).end_ = true ∧
      disjointIds ((allSlots w1Roster).get ⟨0, h0⟩) ((allSlots w1Roster).get ⟨1, h1⟩) = true := by
  refine ⟨by decide, (by with_unfolding_all decide : 0 < (allSlots w1Roster).length),
    (by with_unfolding_all decide : 1 < (allSlots w1Roster).length), ?_, ?_, ?_⟩
  · with_unfolding_all decide
  · with_unfolding_all decide
  · exact C1_generate_roster_no_double_booking 4 ("VOBG") w1Students w1Instructors w1Aircraft []
      w1TimeSlots 0 1 _ _ (by decide) (by with_unfolding_all decide) (by with_unfolding_all decide)

/-! ## Claims C2 to C4 -/

/-- C2: for every slot whose activity is not SIM and every report of
unknown confidence, check_dispatch yields NEEDS_REVIEW with reasons
exactly WEATHER_UNAVAILABLE, never GO nor NO_GO, and any two
unknown-confidence reports yield the same result. -/
theorem C2_unknown_confidence_needs_review
    (slot : RosterSlot) (student : Student) (weather : WeatherReport)
    (simulators : List Simulator) (sim_slots_used : SimUsage)
    (hact : slot.activity ≠ ("SIM")) (hconf : weather.confidence = ("unknown")) :
    (check_dispatch slot student weather simulators sim_slots_used).dispatch_decision = ("NEEDS_REVIEW") ∧
    (check_dispatch slot student weather simulators sim_slots_used).reasons = [("WEATHER_UNAVAILABLE")] ∧
    (check_dispatch slot student weather simulators sim_slots_used).dispatch_decision ≠ ("GO") ∧
    (check_dispatch slot student weather simulators sim_slots_used).dispatch_decision ≠ ("NO_GO") ∧
    ∀ weather2 : WeatherReport, weather2.confidence = ("unknown") →
      check_dispatch slot student weather2 simulators sim_slots_used =
        check_dispatch slot student weather simulators sim_slots_used := by
  have key : ∀ w : WeatherReport, w.confidence = ("unknown") →
      check_dispatch slot student w simulators sim_slots_used =
        { slot with dispatch_decision := ("NEEDS_REVIEW"),
                    reasons := [("WEATHER_UNAVAILABLE")],
                    citations := [cite ("unavailable")] } := by
    intro w hw
    unfold check_dispatch
    rw [if_neg hact, if_pos hw]
  rw [key weather hconf]
  refine ⟨rfl, rfl, ?_, ?_, ?_⟩
  · show ("NEEDS_REVIEW" : String) ≠ ("GO")
    decide
  · show ("NEEDS_REVIEW" : String) ≠ ("NO_GO")
    decide
  · intro w2 h2
    rw [key w2 h2]

def w2Slot : RosterSlot :=
  ⟨("D01-T1"), 10, ("08:00"), ("09:00"), ("FLIGHT"), ("CIRCUITS"), ("S1"), ("I1"),
   ("A1"), ("GO"), [], []⟩

def w2Student : Student := ⟨("S1"), ("PPL-1"), 1, false, 1, []⟩

/-- C2 witness: the fallback report at a concrete FLIGHT slot. -/
theorem C2_witness :
    w2Slot.activity ≠ ("SIM") ∧ (fallback_report ("VOBG")).confidence = ("unknown") ∧
    (check_dispatch w2Slot w2Student (fallback_report ("VOBG")) [] []).dispatch_decision = ("NEEDS_REVIEW") ∧
    (check_dispatch w2Slot w2Student (fallback_report ("VOBG")) [] []).reasons = [("WEATHER_UNAVAILABLE")] := by
  have h := C2_unknown_confidence_needs_review w2Slot w2Student (fallback_report ("VOBG")) [] []
    (by decide) rfl
  exact ⟨by decide, rfl, h.1, h.2.1⟩

/-- C3: for a FLIGHT slot under known-confidence weather with a non-empty
violation list, check_dispatch converts to the first simulator with spare
capacity on the date of the slot, or reports NO_SIM_AVAILABLE keeping the
slot a FLIGHT; the decision is NO_GO either way and the violations prefix
the reasons. -/
theorem C3_violations_convert_or_no_sim
    (slot : RosterSlot) (student : Student) (weather : WeatherReport)
    (simulators : List Simulator) (sim_slots_used : SimUsage)
    (hact : slot.activity = ("FLIGHT"))
    (hconf : weather.confidence ≠ ("unknown"))
    (hviol : dispatch_violations slot student weather ≠ []) :
    (∀ sim : Simulator,
      simulators.find? (fun sm => decide (sim_used sim_slots_used sm.id slot.date < sm.max_sessions_per_day)) = some sim →
      (check_dispatch slot student weather simulators sim_slots_used).activity = ("SIM") ∧
      (check_dispatch slot student weather simulators sim_slots_used).sortie_type = ("SIM_PROCEDURES") ∧
      (check_dispatch slot student weather simulators sim_slots_used).resource_id = sim.id ∧
      (check_dispatch slot student weather simulators sim_slots_used).dispatch_decision = ("NO_GO") ∧
      (check_dispatch slot student weather simulators sim_slots_used).reasons =
        dispatch_violations slot student weather ++ [("CONVERTED_TO_SIM")]) ∧
    (simulators.find? (fun sm => decide (sim_used sim_slots_used sm.id slot.date < sm.max_sessions_per_day)) = none →
      (check_dispatch slot student weather simulators sim_slots_used).dispatch_decision = ("NO_GO") ∧
      (check_dispatch slot student weather simulators sim_slots_used).reasons =
        dispatch_violations slot student weather ++ [("NO_SIM_AVAILABLE")] ∧
      (check_dispatch slot student weather simulators sim_slots_used).activity = ("FLIGHT")) := by
  have hact' : slot.activity ≠ ("SIM") := by
    rw [hact]
    decide
  constructor
  · intro sim hsim
    have hfind : find_available_sim slot simulators sim_slots_used = some sim := hsim
    unfold check_dispatch
    rw [if_neg hact', if_neg hconf, if_neg hviol, hfind]
    exact ⟨rfl, rfl, rfl, rfl, rfl⟩
  · intro hnone
    have hfind : find_available_sim slot simulators sim_slots_used = none := hnone
    unfold check_dispatch
    rw [if_neg hact', if_neg hconf, if_neg hviol, hfind]
    exact ⟨rfl, rfl, hact⟩

def w3Sim : Simulator := ⟨("SIM1"), 2, []⟩

/-- C3 witness: the low-ceiling scenario with one simulator that has
capacity converts the slot. -/
theorem C3_witness :
    w2Slot.activity = ("FLIGHT") ∧
    (get_weather_mock ("VOBG") ("low_ceiling")).confidence ≠ ("unknown") ∧
    dispatch_violations w2Slot w2Student (get_weather_mock ("VOBG") ("low_ceiling")) ≠ [] ∧
    ([w3Sim].find? (fun sm => decide (sim_used [] sm.id w2Slot.date < sm.max_sessions_per_day)) = some w3Sim) ∧
    (check_dispatch w2Slot w2Student (get_weather_mock ("VOBG") ("low_ceiling")) [w3Sim] []).activity = ("SIM") ∧
    (check_dispatch w2Slot w2Student (get_weather_mock ("VOBG") ("low_ceiling")) [w3Sim] []).resource_id = ("SIM1") := by
  have hviol : dispatch_violations w2Slot w2Student (get_weather_mock ("VOBG") ("low_ceiling")) ≠ [] := by
    with_unfolding_all decide
  have hfind : ([w3Sim].find? (fun sm => decide (sim_used [] sm.id w2Slot.date < sm.max_sessions_per_day)) = some w3Sim) := by
    decide
  have h := (C3_violations_convert_or_no_sim w2Slot w2Student
    (get_weather_mock ("VOBG") ("low_ceiling")) [w3Sim] [] rfl (by decide) hviol).1 w3Sim hfind
  exact ⟨rfl, by decide, hviol, hfind, h.1, h.2.2.1⟩

lemma mem_viol_if {A : Type} (o : Option A) (p : A → Prop) [DecidablePred p]
    (code x : String) :
    x ∈ viol_if o p code ↔ x = code ∧ ∃ c, o = some c ∧ p c := by
  cases o with
  | none => simp [viol_if]
  | some c =>
    by_cases hp : p c <;> simp [viol_if, hp]

lemma viol_if_eq_nil {A : Type} (o : Option A) (p : A → Prop) [DecidablePred p]
    (code : String) (h : ∀ c, o = some c → ¬ p c) : viol_if o p code = [] := by
  cases o with
  | none => rfl
  | some c => simp [viol_if, h c rfl]

/-- C4: an absent weather field never contributes its violation, and when
every present field is at or better than the applicable minima the
decision is GO with reason WX_ABOVE_MINIMA, never NO_GO. -/
theorem C4_absent_fields_and_monotone
    (slot : RosterSlot) (student : Student) (weather : WeatherReport)
    (simulators : List Simulator) (sim_slots_used : SimUsage) :
    (weather.ceiling_ft = none → ("WX_BELOW_CEILING_MINIMA") ∉ dispatch_violations slot student weather) ∧
    (weather.visibility_sm = none → ("WX_BELOW_VIS_MINIMA") ∉ dispatch_violations slot student weather) ∧
    (weather.wind_kt = none → ("WX_WIND_EXCEEDED") ∉ dispatch_violations slot student weather) ∧
    (weather.crosswind_kt = none → ("WX_CROSSWIND_EXCEEDED") ∉ dispatch_violations slot student weather) ∧
    (slot.activity = ("FLIGHT") → weather.confidence ≠ ("unknown") →
      (∀ c, weather.ceiling_ft = some c → (dispatch_minima slot student).ceiling_ft ≤ c) →
      (∀ v, weather.visibility_sm = some v → (dispatch_minima slot student).visibility_sm ≤ v) →
      (∀ w, weather.wind_kt = some w → w ≤ (dispatch_minima slot student).wind_kt) →
      (∀ x, weather.crosswind_kt = some x → x ≤ (dispatch_minima slot student).crosswind_kt) →
      dispatch_violations slot student weather = [] ∧
      (check_dispatch slot student weather simulators sim_slots_used).dispatch_decision = ("GO") ∧
      (check_dispatch slot student weather simulators sim_slots_used).reasons = [("WX_ABOVE_MINIMA")] ∧
      (check_dispatch slot student weather simulators sim_slots_used).dispatch_decision ≠ ("NO_GO")) := by
  refine ⟨?_, ?_, ?_, ?_, ?_⟩
  · intro h hmem
    simp [dispatch_violations, check_violations, mem_viol_if, h] at hmem
  · intro h hmem
    simp [dispatch_violations, check_violations, mem_viol_if, h] at hmem
  · intro h hmem
    simp [dispatch_violations, check_violations, mem_viol_if, h] at hmem
  · intro h hmem
    simp [dispatch_violations, check_violations, mem_viol_if, h] at hmem
  · intro hact hconf h1 h2 h3 h4
    have hnil : dispatch_violations slot student weather = [] := by
      unfold dispatch_violations check_violations
      rw [viol_if_eq_nil _ _ _ (by intro c hc; exact not_lt.mpr (h1 c hc)),
          viol_if_eq_nil _ _ _ (by intro v hv; exact not_lt.mpr (h2 v hv)),
          viol_if_eq_nil _ _ _ (by intro w hw; exact not_lt.mpr (h3 w hw)),
          viol_if_eq_nil _ _ _ (by intro x hx; exact not_lt.mpr (h4 x hx))]
      rfl
    have hact' : slot.activity ≠ ("SIM") := by
      rw [hact]
      decide
    refine ⟨hnil, ?_, ?_, ?_⟩
    · unfold check_dispatch
      rw [if_neg hact', if_neg hconf, if_pos hnil]
    · unfold check_dispatch
      rw [if_neg hact', if_neg hconf, if_pos hnil]
    · unfold check_dispatch
      rw [if_neg hact', if_neg hconf, if_pos hnil]
      show ("GO" : String) ≠ ("NO_GO")
      decide

/-- C4 witness: the good scenario against a PPL-1 FLIGHT slot. -/
theorem C4_witness :
    (∀ c, (get_weather_mock ("VOBG") ("good")).ceiling_ft = some c →
      (dispatch_minima w2Slot w2Student).ceiling_ft ≤ c) ∧
    (check_dispatch w2Slot w2Student (get_weather_mock ("VOBG") ("good")) [] []).dispatch_decision = ("GO") ∧
    (check_dispatch w2Slot w2Student (get_weather_mock ("VOBG") ("good")) [] []).reasons = [("WX_ABOVE_MINIMA")] := by
  have h1 : ∀ c, (get_weather_mock ("VOBG") ("good")).ceiling_ft = some c →
      (dispatch_minima w2Slot w2Student).ceiling_ft ≤ c := by
    intro c hc
    cases hc
    with_unfolding_all decide
  have h2 : ∀ v, (get_weather_mock ("VOBG") ("good")).visibility_sm = some v →
      (dispatch_minima w2Slot w2Student).visibility_sm ≤ v := by
    intro v hv
    cases hv
    with_unfolding_all decide
  have h3 : ∀ w, (get_weather_mock ("VOBG") ("good")).wind_kt = some w →
      w ≤ (dispatch_minima w2Slot w2Student).wind_kt := by
    intro w hw
    cases hw
    with_unfolding_all decide
  have h4 : ∀ x, (get_weather_mock ("VOBG") ("good")).crosswind_kt = some x →
      x ≤ (dispatch_minima w2Slot w2Student).crosswind_kt := by
    intro x hx
    cases hx
    with_unfolding_all decide
  have h := (C4_absent_fields_and_monotone w2Slot w2Student (get_weather_mock ("VOBG") ("good"))
    [] []).2.2.2.2 rfl (by decide) h1 h2 h3 h4
  exact ⟨h1, h.2.1, h.2.2.1⟩

/-! ## Claim C6 -/

/-- C6 counterexample: a diff with one change against a zero-slot old
roster yields churn 0 although total_changes is not 0, so the claimed
equivalence fails as stated. -/
theorem C6_counterexample :
    compute_churn_rate (⟨[w2Slot], [], [], 1⟩ : RosterDiff) 0 = 0 ∧
    (⟨[w2Slot], [], [], 1⟩ : RosterDiff).total_changes ≠ 0 := by
  exact ⟨rfl, by decide⟩

/-- C6 amended: the churn rate is nonnegative, a zero-slot old roster
yields 0, and for a positive slot count the churn rate is 0 exactly when
total_changes is 0. -/
theorem C6_churn_rate_amended (diff : RosterDiff) (total_slots : Nat) :
    0 ≤ compute_churn_rate diff total_slots ∧
    (total_slots = 0 → compute_churn_rate diff total_slots = 0) ∧
    (0 < total_slots →
      (compute_churn_rate diff total_slots = 0 ↔ diff.total_changes = 0)) := by
  unfold compute_churn_rate
  by_cases h : total_slots = 0
  · rw [if_pos h]
    exact ⟨le_refl 0, fun _ => rfl, fun hlt => absurd h (Nat.pos_iff_ne_zero.mp hlt)⟩
  · rw [if_neg h]
    have hn : (total_slots : ℚ) ≠ 0 := Nat.cast_ne_zero.mpr h
    refine ⟨?_, fun h0 => absurd h0 h, fun _ => ?_⟩
    · exact mul_nonneg (div_nonneg (Nat.cast_nonneg _) (Nat.cast_nonneg _)) (by norm_num)
    · constructor
      · intro he
        rcases mul_eq_zero.mp he with hd | h100
        · rcases div_eq_zero_iff.mp hd with hc | hn'
          · exact Nat.cast_eq_zero.mp hc
          · exact absurd hn' hn
        · norm_num at h100
      · intro hc
        rw [hc]
        norm_num

/-- C6 witness: the amended equivalence at a concrete positive slot
count. -/
theorem C6_witness :
    (0 : Nat) < 2 ∧
    (compute_churn_rate (⟨[], [], [], 0⟩ : RosterDiff) 2 = 0 ↔
      (⟨[], [], [], 0⟩ : RosterDiff).total_changes = 0) :=
  ⟨by decide, (C6_churn_rate_amended ⟨[], [], [], 0⟩ 2).2.2 (by decide)⟩

/-! ## Claim C7 -/

/-- Keys of a dict are pairwise distinct. -/
def KeysNodup {K V : Type} [DecidableEq K] (m : List (K × V)) : Prop :=
  (m.map (fun p => p.1)).Nodup

lemma alSet_keysNodup {K V : Type} [DecidableEq K] (m : List (K × V)) (k : K) (v : V)
    (h : KeysNodup m) : KeysNodup (alSet m k v) := by
  unfold alSet
  by_cases hany : m.any (fun p => decide (p.1 = k)) = true
  · rw [if_pos hany]
    unfold KeysNodup
    have : (m.map (fun p => if p.1 = k then (k, v) else p)).map (fun p => p.1) =
        m.map (fun p => p.1) := by
      rw [List.map_map]
      apply List.map_congr_left
      intro p _
      by_cases hpk : p.1 = k
      · simp [hpk]
      · simp [hpk]
    rw [this]
    exact h
  · rw [if_neg hany]
    unfold KeysNodup
    rw [List.map_append]
    simp only [List.map_cons, List.map_nil]
    rw [List.nodup_append]
    refine ⟨h, List.nodup_singleton _, ?_⟩
    intro a ha hb
    rcases List.mem_singleton.mp hb with rfl
    obtain ⟨p, hp, hpk⟩ := List.mem_map.mp ha
    apply hany
    exact List.any_eq_true.mpr ⟨p, hp, by simp [hpk]⟩

lemma alGet_of_mem_nodup {K V : Type} [DecidableEq K] (m : List (K × V)) (p : K × V)
    (h : KeysNodup m) (hp : p ∈ m) : alGet m p.1 = some p.2 := by
  induction m with
  | nil => cases hp
  | cons q rest ih =>
    unfold KeysNodup at h
    simp only [List.map_cons, List.nodup_cons] at h
    rw [alGet_cons]
    rcases List.mem_cons.mp hp with rfl | hp'
    · rw [if_pos rfl]
    · by_cases hq : q.1 = p.1
      · exfalso
        apply h.1
        rw [hq]
        exact List.mem_map.mpr ⟨p, hp', rfl⟩
      · rw [if_neg hq]
        exact ih h.2 hp'

lemma mem_of_alGet {K V : Type} [DecidableEq K] (m : List (K × V)) (k : K) (v : V)
    (h : alGet m k = some v) : (k, v) ∈ m := by
  induction m with
  | nil => cases h
  | cons q rest ih =>
    rw [alGet_cons] at h
    by_cases hq : q.1 = k
    · rw [if_pos hq] at h
      injection h with h2
      have hqe : q = (k, v) := by
        cases q
        simp_all
      rw [← hqe]
      exact List.mem_cons_self _ _
    · rw [if_neg hq] at h
      exact List.mem_cons_of_mem _ (ih h)

lemma foldl_alSet_keysNodup (l : List RosterSlot) (m : List (String × RosterSlot))
    (h : KeysNodup m) :
    KeysNodup (l.foldl (fun m s => alSet m s.slot_id s) m) := by
  induction l generalizing m with
  | nil => exact h
  | cons s rest ih =>
    simp only [List.foldl_cons]
    exact ih _ (alSet_keysNodup _ _ _ h)

lemma slotsDict_keysNodup (r : Roster) : KeysNodup (slotsDict r) := by
  unfold slotsDict
  exact foldl_alSet_keysNodup _ _ (by simp [KeysNodup])

lemma alHasKey_of_mem {K V : Type} [DecidableEq K] (m : List (K × V)) (p : K × V)
    (hp : p ∈ m) : alHasKey m p.1 = true :=
  List.any_eq_true.mpr ⟨p, hp, by simp⟩

/-- The six-field difference of the diff algorithm, in source key order. -/
def fieldsDiffer (o n : RosterSlot) : Prop :=
  o.activity ≠ n.activity ∨ o.student_id ≠ n.student_id ∨
  o.instructor_id ≠ n.instructor_id ∨ o.resource_id ≠ n.resource_id ∨
  o.sortie_type ≠ n.sortie_type ∨ o.dispatch_decision ≠ n.dispatch_decision

lemma slot_changes_self (o : RosterSlot) : slot_changes o o = [] := by
  simp [slot_changes]

lemma slot_changes_ne_nil_iff (o n : RosterSlot) :
    slot_changes o n ≠ [] ↔ fieldsDiffer o n := by
  unfold slot_changes fieldsDiffer
  by_cases h1 : o.activity = n.activity <;>
    by_cases h2 : o.student_id = n.student_id <;>
      by_cases h3 : o.instructor_id = n.instructor_id <;>
        by_cases h4 : o.resource_id = n.resource_id <;>
          by_cases h5 : o.sortie_type = n.sortie_type <;>
            by_cases h6 : o.dispatch_decision = n.dispatch_decision <;>
              simp [h1, h2, h3, h4, h5, h6]

/-- The per-entry function that builds the modified list, evaluated when
the key is in the new dict and a field differs. -/
lemma diff_modified_fun (new_slots : List (String × RosterSlot))
    (p : String × RosterSlot) (n : RosterSlot) (h : alGet new_slots p.1 = some n)
    (hch : slot_changes p.2 n ≠ []) :
    (match alGet new_slots p.1 with
     | none => none
     | some n =>
       let changes := slot_changes p.2 n
       if changes = [] then none else some (⟨p.1, changes⟩ : ModifiedEntry)) =
      some (⟨p.1, slot_changes p.2 n⟩ : ModifiedEntry) := by
  rw [h]
  simp only []
  rw [if_neg hch]

/-- C7: diffing a roster against itself is empty with zero total changes;
total_changes is always the sum of the three list lengths; and a slot id
present in both rosters appears among the modified entries exactly when
one of the six compared fields differs. -/
theorem C7_diff_laws :
    (∀ R : Roster,
      (compute_roster_diff R R).added = [] ∧
      (compute_roster_diff R R).removed = [] ∧
      (compute_roster_diff R R).modified = [] ∧
      (compute_roster_diff R R).total_changes = 0) ∧
    (∀ R1 R2 : Roster,
      (compute_roster_diff R1 R2).total_changes =
        (compute_roster_diff R1 R2).added.length +
        (compute_roster_diff R1 R2).removed.length +
        (compute_roster_diff R1 R2).modified.length ∧
      ∀ sid o n, alGet (slotsDict R1) sid = some o →
        alGet (slotsDict R2) sid = some n →
        ((∃ e ∈ (compute_roster_diff R1 R2).modified, e.slot_id = sid) ↔
          fieldsDiffer o n)) := by
  have hadded : ∀ R : Roster, (compute_roster_diff R R).added = [] := by
    intro R
    show ((slotsDict R).filter (fun p => !alHasKey (slotsDict R) p.1)).map (fun p => p.2) = []
    rw [List.filter_eq_nil_iff.mpr, List.map_nil]
    intro p hp
    simp [alHasKey_of_mem _ p hp]
  have hremoved : ∀ R : Roster, (compute_roster_diff R R).removed = [] := by
    intro R
    show ((slotsDict R).filter (fun p => !alHasKey (slotsDict R) p.1)).map (fun p => p.2) = []
    rw [List.filter_eq_nil_iff.mpr, List.map_nil]
    intro p hp
    simp [alHasKey_of_mem _ p hp]
  have hmodified : ∀ R : Roster, (compute_roster_diff R R).modified = [] := by
    intro R
    apply List.filterMap_eq_nil_iff.mpr
    intro p hp
    rw [alGet_of_mem_nodup _ p (slotsDict_keysNodup R) hp]
    simp [slot_changes_self]
  constructor
  · intro R
    refine ⟨hadded R, hremoved R, hmodified R, ?_⟩
    show (compute_roster_diff R R).added.length + (compute_roster_diff R R).removed.length +
      (compute_roster_diff R R).modified.length = 0
    rw [hadded R, hremoved R, hmodified R]
    rfl
  · intro R1 R2
    refine ⟨rfl, ?_⟩
    intro sid o n ho hn
    constructor
    · rintro ⟨e, he, hesid⟩
      obtain ⟨p, hp, hf⟩ := List.mem_filterMap.mp he
      cases hg : alGet (slotsDict R2) p.1 with
      | none =>
        rw [hg] at hf
        cases hf
      | some n' =>
        rw [hg] at hf
        simp only [] at hf
        by_cases hch : slot_changes p.2 n' = []
        · rw [if_pos hch] at hf
          cases hf
        · rw [if_neg hch] at hf
          injection hf with hf2
          have hpsid : p.1 = sid := by
            rw [← hesid, ← hf2]
          rw [hpsid] at hg
          have hn' : n' = n := by
            rw [hg] at hn
            injection hn
          have hpo : p.2 = o := by
            have hmem := alGet_of_mem_nodup _ p (slotsDict_keysNodup R1) hp
            rw [hpsid, ho] at hmem
            injection hmem with h3
            exact h3.symm
          rw [← hpo, ← hn']
          exact (slot_changes_ne_nil_iff p.2 n').mp hch
    · intro hdiff
      have hmem : (sid, o) ∈ slotsDict R1 := mem_of_alGet _ _ _ ho
      have hch : slot_changes o n ≠ [] := (slot_changes_ne_nil_iff o n).mpr hdiff
      refine ⟨⟨sid, slot_changes o n⟩, ?_, rfl⟩
      apply List.mem_filterMap.mpr
      exact ⟨(sid, o), hmem, diff_modified_fun (slotsDict R2) (sid, o) n hn hch⟩

/-- C7 witness: the modified-membership equivalence at a concrete pair of
one-slot rosters differing in dispatch_decision. -/
theorem C7_witness :
    alGet (slotsDict (⟨4, ("VOBG"), [⟨4, [w2Slot]⟩], []⟩ : Roster)) ("D01-T1") = some w2Slot ∧
    alGet (slotsDict (⟨4, ("VOBG"), [⟨4, [{ w2Slot with dispatch_decision := ("NO_GO") }]⟩], []⟩ : Roster)) ("D01-T1") =
      some { w2Slot with dispatch_decision := ("NO_GO") } ∧
    ((∃ e ∈ (compute_roster_diff (⟨4, ("VOBG"), [⟨4, [w2Slot]⟩], []⟩ : Roster)
        (⟨4, ("VOBG"), [⟨4, [{ w2Slot with dispatch_decision := ("NO_GO") }]⟩], []⟩ : Roster)).modified,
        e.slot_id = ("D01-T1")) ↔
      fieldsDiffer w2Slot { w2Slot with dispatch_decision := ("NO_GO") }) := by
  have h1 : alGet (slotsDict (⟨4, ("VOBG"), [⟨4, [w2Slot]⟩], []⟩ : Roster)) ("D01-T1") = some w2Slot := by
    decide
  have h2 : alGet (slotsDict (⟨4, ("VOBG"), [⟨4, [{ w2Slot with dispatch_decision := ("NO_GO") }]⟩], []⟩ : Roster)) ("D01-T1") =
      some { w2Slot with dispatch_decision := ("NO_GO") } := by
    decide
  exact ⟨h1, h2, (C7_diff_laws.2 _ _).2 ("D01-T1") _ _ h1 h2⟩

/-! ## Claim C5 -/

def w5Roster : Roster := ⟨20276, ("VOBG"), [⟨20276, [w2Slot]⟩], []⟩

def w5Event : DisruptionEvent :=
  ⟨("BIRD_STRIKE"), some ("X"), none, none, [], ("cid-5")⟩

/-- C5: evaluating reallocate_roster at an unrecognized event type: the
code returns a normal result with an empty affected list, the input roster
unchanged and an empty diff, instead of signalling an error as the claim
requires. -/
theorem C5_unknown_event_type_not_rejected :
    (reallocate_roster w5Roster w5Event [] [] [] [] [] none).map
      (fun r => (r.affected_slots, r.new_roster, r.diff.total_changes, r.event_type)) =
      some ([], w5Roster, 0, ("BIRD_STRIKE")) := by
  decide

/-! ## Claim C10 -/

def w10Roster : Roster := ⟨10, ("VOBG"), [⟨10, [w2Slot]⟩], []⟩

/-- A weather update whose window covers only days 20 and 21, far from the
slot on day 10. -/
def w10Event : DisruptionEvent :=
  ⟨("WEATHER_UPDATE"), none, some 20, some 21, [], ("cid-10")⟩

/-- C10: the weather replanning loop of reallocate_roster re-dispatches a
FLIGHT slot whose date lies outside the event window: the window-filtered
affected list is empty while the diff reports that very slot as modified,
so the modified set is not contained in the affected list. -/
theorem C10_weather_redispatch_ignores_window :
    (reallocate_roster w10Roster w10Event [w2Student] [] [] [] []
        (some (get_weather_mock ("VOBG") ("low_ceiling")))).map
      (fun r => (r.affected_slots, r.diff.modified.map (fun e => e.slot_id))) =
      some ([], [("D01-T1")]) := by
  with_unfolding_all decide

/-! ## Claim C8 -/

/-- C8: for the three entity-unavailability event types, reallocate_roster
succeeds, its affected list is the identified one, and the new roster is
the old one pointwise with every structural field (slot id, date, window,
activity, sortie type, student, instructor, resource) preserved; an
affected slot gets decision NEEDS_REVIEW with the generic disruption
reason and citation, and a slot not in the affected list is entirely
unchanged. -/
theorem C8_entity_disruption_flag_only
    (roster : Roster) (event : DisruptionEvent) (students : List Student)
    (instructors : List Instructor) (aircraft : List Aircraft)
    (simulators : List Simulator) (time_slots : List TimeSlot)
    (weather_data : Option WeatherReport)
    (h : event.event_type = ("AIRCRAFT_UNSERVICEABLE") ∨
         event.event_type = ("INSTRUCTOR_UNAVAILABLE") ∨
         event.event_type = ("STUDENT_UNAVAILABLE")) :
    ∃ res : ReallocationResult,
      reallocate_roster roster event students instructors aircraft simulators time_slots weather_data = some res ∧
      res.affected_slots = identify_affected_slots roster event ∧
      List.Forall₂ (fun dOld dNew =>
        dNew.date = dOld.date ∧
        List.Forall₂ (fun sOld sNew =>
          sNew.slot_id = sOld.slot_id ∧ sNew.date = sOld.date ∧ sNew.start = sOld.start ∧
          sNew.end_ = sOld.end_ ∧ sNew.activity = sOld.activity ∧
          sNew.sortie_type = sOld.sortie_type ∧ sNew.student_id = sOld.student_id ∧
          sNew.instructor_id = sOld.instructor_id ∧ sNew.resource_id = sOld.resource_id ∧
          (sOld ∈ identify_affected_slots roster event →
            sNew.dispatch_decision = ("NEEDS_REVIEW") ∧
            sNew.reasons = [event.event_type ++ ("_DISRUPTION")] ∧
            sNew.citations = [("rules:doc_dispatch#disruption")]) ∧
          (sOld ∉ identify_affected_slots roster event → sNew = sOld))
          dOld.slots dNew.slots)
        roster.roster res.new_roster.roster := by
  have hne : ¬ (event.event_type = ("WEATHER_UPDATE")) := by
    rcases h with h | h | h <;> rw [h] <;> decide
  simp only [reallocate_roster]
  rw [if_neg hne, if_pos h]
  refine ⟨_, rfl, rfl, ?_⟩
  rw [List.forall₂_map_right_iff, List.forall₂_same]
  intro day _
  refine ⟨rfl, ?_⟩
  rw [List.forall₂_map_right_iff, List.forall₂_same]
  intro s _
  unfold mark_disruption
  by_cases hmem : (identify_affected_slots roster event).contains s = true
  · rw [if_pos hmem]
    refine ⟨rfl, rfl, rfl, rfl, rfl, rfl, rfl, rfl, rfl, fun _ => ⟨rfl, rfl, rfl⟩, ?_⟩
    intro hno
    exact absurd (List.mem_of_elem_eq_true hmem) hno
  · rw [if_neg hmem]
    refine ⟨rfl, rfl, rfl, rfl, rfl, rfl, rfl, rfl, rfl, ?_, fun _ => rfl⟩
    intro hyes
    exact absurd (List.elem_eq_true_of_mem hyes) hmem

def w8Event : DisruptionEvent :=
  ⟨("INSTRUCTOR_UNAVAILABLE"), some ("I1"), none, none, [], ("cid-8")⟩

/-- C8 witness: an instructor-unavailable disruption at a one-slot
roster. -/
theorem C8_witness :
    (w8Event.event_type = ("AIRCRAFT_UNSERVICEABLE") ∨
     w8Event.event_type = ("INSTRUCTOR_UNAVAILABLE") ∨
     w8Event.event_type = ("STUDENT_UNAVAILABLE")) ∧
    ∃ res : ReallocationResult,
      reallocate_roster w5Roster w8Event [] [] [] [] [] none = some res ∧
      res.affected_slots = identify_affected_slots w5Roster w8Event ∧
      List.Forall₂ (fun dOld dNew =>
        dNew.date = dOld.date ∧
        List.Forall₂ (fun sOld sNew =>
          sNew.slot_id = sOld.slot_id ∧ sNew.date = sOld.date ∧ sNew.start = sOld.start ∧
          sNew.end_ = sOld.end_ ∧ sNew.activity = sOld.activity ∧
          sNew.sortie_type = sOld.sortie_type ∧ sNew.student_id = sOld.student_id ∧
          sNew.instructor_id = sOld.instructor_id ∧ sNew.resource_id = sOld.resource_id ∧
          (sOld ∈ identify_affected_slots w5Roster w8Event →
            sNew.dispatch_decision = ("NEEDS_REVIEW") ∧
            sNew.reasons = [w8Event.event_type ++ ("_DISRUPTION")] ∧
            sNew.citations = [("rules:doc_dispatch#disruption")]) ∧
          (sOld ∉ identify_affected_slots w5Roster w8Event → sNew = sOld))
          dOld.slots dNew.slots)
        w5Roster.roster res.new_roster.roster :=
  ⟨Or.inr (Or.inl rfl),
   C8_entity_disruption_flag_only w5Roster w8Event [] [] [] [] [] none (Or.inr (Or.inl rfl))⟩

/-! ## Claim C9 -/

/-- A window parses when it splits into exactly two time strings of the
clock format; this is the well-formedness notion of the claim, stated
separately from slot_fits_in_window for comparison. -/
def parseWindow? (w : String) : Option (Nat × Nat) :=
  match w.splitOn ("-") with
  | [ws, we] =>
    match parseTime? ws, parseTime? we with
    | some a, some b => some (a, b)
    | _, _ => none
  | _ => none

/-- C9: the availability predicate returns true only when some listed
window is not the MAINTENANCE sentinel, parses, and fully contains the
parsed candidate window; a missing weekday entry, an empty window list, or
a list of only malformed windows yields false. -/
theorem C9_is_available_fail_closed (avail : Availability) (day_name s e : String) :
    (is_available avail day_name s e = true →
      ∃ w ∈ (alGet avail day_name).getD [], w.toUpper ≠ ("MAINTENANCE") ∧
        ∃ a b, parseWindow? w = some (a, b) ∧
          ∃ c d, parseTime? s = some c ∧ parseTime? e = some d ∧ a ≤ c ∧ d ≤ b) ∧
    ((alGet avail day_name = none ∨ alGet avail day_name = some [] ∨
      ∀ w ∈ (alGet avail day_name).getD [], parseWindow? w = none) →
      is_available avail day_name s e = false) := by
  constructor
  · intro hav
    unfold is_available at hav
    obtain ⟨w, hw, hfit⟩ := List.any_eq_true.mp hav
    refine ⟨w, hw, ?_⟩
    unfold slot_fits_in_window at hfit
    by_cases hme : w = ("") ∨ w.toUpper = ("MAINTENANCE")
    · rw [if_pos hme] at hfit
      cases hfit
    · rw [if_neg hme] at hfit
      push_neg at hme
      cases hsp : w.splitOn ("-") with
      | nil =>
        rw [hsp] at hfit
        cases hfit
      | cons ws tail =>
        cases tail with
        | nil =>
          rw [hsp] at hfit
          cases hfit
        | cons we tail2 =>
          cases tail2 with
          | cons u tail3 =>
            rw [hsp] at hfit
            cases hfit
          | nil =>
            rw [hsp] at hfit
            simp only [] at hfit
            cases hpa : parseTime? ws with
            | none =>
              rw [hpa] at hfit
              simp at hfit
            | some a =>
              cases hpb : parseTime? we with
              | none =>
                rw [hpa, hpb] at hfit
                simp at hfit
              | some b =>
                cases hpc : parseTime? s with
                | none =>
                  rw [hpa, hpb, hpc] at hfit
                  simp at hfit
                | some c =>
                  cases hpd : parseTime? e with
                  | none =>
                    rw [hpa, hpb, hpc, hpd] at hfit
                    simp at hfit
                  | some d =>
                    rw [hpa, hpb, hpc, hpd] at hfit
                    simp only [Bool.and_eq_true, decide_eq_true_eq] at hfit
                    refine ⟨hme.2, a, b, ?_, c, d, rfl, rfl, hfit.1, hfit.2⟩
                    unfold parseWindow?
                    rw [hsp]
                    simp only []
                    rw [hpa, hpb]
  · intro hcase
    rcases hcase with hc | hc | hc
    · unfold is_available
      rw [hc]
      rfl
    · unfold is_available
      rw [hc]
      rfl
    · unfold is_available
      apply List.any_eq_false.mpr
      intro w hw
      rw [Bool.not_eq_true]
      have hmal := hc w hw
      unfold slot_fits_in_window
      by_cases hme : w = ("") ∨ w.toUpper = ("MAINTENANCE")
      · rw [if_pos hme]
      · rw [if_neg hme]
        cases hsp : w.splitOn ("-") with
        | nil => rfl
        | cons ws tail =>
          cases tail with
          | nil => rfl
          | cons we tail2 =>
            cases tail2 with
            | cons u tail3 => rfl
            | nil =>
              simp only []
              cases hpa : parseTime? ws with
              | none => rfl
              | some a =>
                cases hpb : parseTime? we with
                | none => rfl
                | some b =>
                  exfalso
                  have hpw : parseWindow? w = some (a, b) := by
                    unfold parseWindow?
                    rw [hsp]
                    simp only []
                    rw [hpa, hpb]
                  rw [hpw] at hmal
                  cases hmal

/-- C9 witness: a concrete availability map where the predicate holds and
yields a parsed containing window. -/
theorem C9_witness :
    is_available [(("Mon"), [("07:00-12:00")])] ("Mon") ("08:00") ("09:00") = true ∧
    ∃ w ∈ (alGet [(("Mon"), [("07:00-12:00")])] ("Mon")).getD [],
      w.toUpper ≠ ("MAINTENANCE") ∧
      ∃ a b, parseWindow? w = some (a, b) ∧
        ∃ c d, parseTime? ("08:00") = some c ∧ parseTime? ("09:00") = some d ∧
          a ≤ c ∧ d ≤ b := by
  have h : is_available [(("Mon"), [("07:00-12:00")])] ("Mon") ("08:00") ("09:00") = true := by
    with_unfolding_all decide
  exact ⟨h, (C9_is_available_fail_closed [(("Mon"), [("07:00-12:00")])] ("Mon") ("08:00") ("09:00")).1 h⟩
